import Mathlib

/-!
# QtScrcpy device server: bootstrap state machine and device-info header

Shallow embedding of `src/QtScrcpy/device/server/server.cpp`.

* Member fields of `Server` become fields of the structure `Server`; every
  member function becomes a function that takes the state and returns the new
  state together with the list of observable actions it performed (commands
  handed to the two `AdbProcess` runners, detached tunnel-removal commands,
  emitted signals).
* What the code asks of its collaborators (`isRuning()`, the result of
  `listen`) is an input of the call, gathered in `Env`.
* A socket is its receive buffer, the chunks of data that the following
  bounded waits will deliver, and an open flag.
-/

namespace QtScrcpy

/-! ## Constants of server.cpp -/

def DEVICE_SERVER_PATH : String := "/data/local/tmp/scrcpy-server.jar"

def DEVICE_NAME_FIELD_LENGTH : Nat := 64

def SOCKET_NAME : String := "qtscrcpy"

/-! ## Bytes, sizes, sockets -/

/-- An `unsigned char`. -/
abbrev Byte := Fin 256

/-- The `QSize` of Qt: two `int`s; the default-constructed size is `(-1, -1)`. -/
structure QSize where
  width : Int
  height : Int
deriving DecidableEq, Repr

/-- The size `QSize()`. -/
def QSize.null : QSize := ⟨-1, -1⟩

/-- A connected TCP socket as the server sees it. `buffered` is what
`bytesAvailable()` counts; each `waitForReadyRead` delivers the next chunk of
`arriving` (an empty chunk is a wait that timed out). -/
structure TcpSocket where
  isOpen : Bool
  deleteLater : Bool
  buffered : List Byte
  arriving : List (List Byte)
deriving DecidableEq, Repr

/-- The video socket is a TCP socket (its class only adds the frame reader). -/
abbrev VideoSocket := TcpSocket

def TcpSocket.bytesAvailable (s : TcpSocket) : Nat := s.buffered.length

/-- The call `waitForReadyRead(msecs)`: the next chunk, if any, reaches the buffer. -/
def TcpSocket.waitForReadyRead (s : TcpSocket) : TcpSocket :=
  match s.arriving with
  | [] => s
  | chunk :: rest => { s with buffered := s.buffered ++ chunk, arriving := rest }

/-- The call `read(buf, maxlen)`: at most `maxlen` buffered bytes are taken; a
closed socket delivers none (the call returns -1). -/
def TcpSocket.read (s : TcpSocket) (maxlen : Nat) : List Byte × TcpSocket :=
  if s.isOpen then (s.buffered.take maxlen, { s with buffered := s.buffered.drop maxlen })
  else ([], s)

/-- The calls `close()` and `deleteLater()` that `stop()` makes on a socket. -/
def TcpSocket.closeAndDelete (s : TcpSocket) : TcpSocket :=
  { s with isOpen := false, deleteLater := true }

/-- The C string starting at `buf`: the bytes before the first zero byte. -/
def cString (buf : List Byte) : List Byte := buf.takeWhile (fun b => b != 0)

/-- The expression `(hi << 8) | lo` on two `unsigned char`s promoted to `int`. -/
def be16 (hi lo : Byte) : Int := ((hi.val <<< 8) ||| lo.val : Nat)

/-- Lines 322-326 of `Server::readInfo`: wait once when no more than 68 bytes
are buffered, then read at most 68 bytes. -/
def readInfoRead (sock : VideoSocket) : List Byte × VideoSocket :=
  let sock1 :=
    if sock.bytesAvailable ≤ DEVICE_NAME_FIELD_LENGTH + 4 then sock.waitForReadyRead else sock
  sock1.read (DEVICE_NAME_FIELD_LENGTH + 4)

/-- `Server::readInfo(deviceName, size)` on the video socket `sock`. The two
reference parameters come in with the caller's values and go out in the
result, after the returned `bool`. -/
def readInfo (sock : VideoSocket) (deviceName : List Byte) (size : QSize) :
    Bool × List Byte × QSize × VideoSocket :=
  let (data, sock2) := readInfoRead sock
  if data.length < DEVICE_NAME_FIELD_LENGTH + 4 then
    (false, deviceName, size, sock2)
  else
    let buf := data.set (DEVICE_NAME_FIELD_LENGTH - 1) 0
    let name := cString buf
    let w := be16 (buf.getD DEVICE_NAME_FIELD_LENGTH 0) (buf.getD (DEVICE_NAME_FIELD_LENGTH + 1) 0)
    let h := be16 (buf.getD (DEVICE_NAME_FIELD_LENGTH + 2) 0) (buf.getD (DEVICE_NAME_FIELD_LENGTH + 3) 0)
    (true, name, { width := w, height := h }, sock2)

/-- The bytes of an ASCII string. -/
def asciiBytes (s : String) : List Byte := s.toList.map (fun c => Fin.ofNat c.toNat)

/-- The 68-byte header with name "pixel", width bytes 04 38, height bytes 08 E8. -/
def pixelHeader : List Byte :=
  asciiBytes "pixel" ++ List.replicate 59 0 ++ [0x04, 0x38, 0x08, 0xE8]

/-- A video socket that holds exactly the bytes `bs` and receives nothing more. -/
def socketHolding (bs : List Byte) : VideoSocket :=
  { isOpen := true, deleteLater := false, buffered := bs, arriving := [] }

/-! ## The bootstrap state machine -/

/-- The enumeration `Server::SERVER_START_STEP`. -/
inductive SERVER_START_STEP where
  | SSS_NULL
  | SSS_PUSH
  | SSS_ENABLE_TUNNEL_REVERSE
  | SSS_ENABLE_TUNNEL_FORWARD
  | SSS_EXECUTE_SERVER
  | SSS_RUNNING
deriving DecidableEq, Repr

/-- Modelled from the spec: the enumeration `AdbProcess::ADB_EXEC_RESULT` is
declared in adbprocess.h, which is absent. A command reports one of
StartSucceeded, StartFailed, ExecSucceeded, ExecFailed; the names are those
server.cpp uses. -/
inductive ADB_EXEC_RESULT where
  | AER_SUCCESS_START
  | AER_ERROR_START
  | AER_SUCCESS_EXEC
  | AER_ERROR_EXEC
deriving DecidableEq, Repr

/-- Modelled from the spec: `Server::ServerParams` is declared in server.h,
which is absent. Its fields are those server.cpp reads: device identifier,
local port, max frame size, bit rate, crop, send-frame-metadata flag,
control-enabled flag. -/
structure ServerParams where
  serial : String
  localPort : Nat
  maxSize : Nat
  bitRate : Nat
  crop : String
  sendFrameMeta : Bool
  control : Bool
deriving DecidableEq, Repr

/-- The object whose signal reaches `onWorkProcessResult`: only
`m_workProcess` and `m_serverProcess` are connected to it. -/
inductive Sender where
  | workProcess
  | serverProcess
deriving DecidableEq, Repr

/-- What a member function does that its callers and collaborators observe. -/
inductive Action where
  /-- The call `m_workProcess.kill()`. -/
  | workKill
  /-- The call `m_workProcess.push(serial, getServerPath(), remote)`. -/
  | push (serial remote : String)
  /-- The call `m_workProcess.reverse(serial, socketName, port)`. -/
  | reverse (serial socketName : String) (port : Nat)
  /-- The call `m_workProcess.forward(serial, port, socketName)`. -/
  | forward (serial : String) (port : Nat) (socketName : String)
  /-- A detached `reverseRemove(serial, socketName)`. -/
  | reverseRemove (serial socketName : String)
  /-- A detached `forwardRemove(serial, port)`. -/
  | forwardRemove (serial : String) (port : Nat)
  /-- The call `m_serverProcess.kill()`. -/
  | serverKill
  /-- The call `m_serverProcess.execute(serial, args)`. -/
  | execute (serial : String) (args : List String)
  /-- The call `m_serverSocket.setMaxPendingConnections(n)`. -/
  | setMaxPendingConnections (n : Nat)
  /-- The call `m_serverSocket.listen(LocalHost, port)`. -/
  | listen (port : Nat)
  /-- The signal `serverStartResult(success)`. -/
  | serverStartResult (success : Bool)
  /-- The signal `onServerStop()`. -/
  | onServerStop
  /-- The signal `connectToResult(success, deviceName, size)`. -/
  | connectToResult (success : Bool) (deviceName : List Byte) (size : QSize)
  /-- The call `startTimer(msecs)`. -/
  | startTimer (msecs : Nat)
  /-- The call `killTimer(id)`. -/
  | killTimer (id : Nat)
  /-- The call `QTimer::singleShot(msecs, ...)` that schedules the delayed handshake. -/
  | singleShot (msecs : Nat)
  /-- The call `m_videoSocket->connectToHost(LocalHost, port)`. -/
  | videoConnectToHost (port : Nat)
  /-- The call `m_controlSocket->connectToHost(LocalHost, port)`. -/
  | controlConnectToHost (port : Nat)
deriving DecidableEq, Repr

/-- What one call reads from the collaborators of the instance: whether each
runner still has a process, and whether `listen` binds the port. -/
structure Env where
  workRuning : Bool
  serverRuning : Bool
  listenOk : Bool
deriving DecidableEq, Repr

/-- The member fields of `Server`. `m_serverSocketListening` is the state of
`m_serverSocket`; a null socket pointer is `none`. -/
structure Server where
  m_serverSocketListening : Bool
  m_videoSocket : Option VideoSocket
  m_controlSocket : Option TcpSocket
  m_tunnelEnabled : Bool
  m_tunnelForward : Bool
  m_acceptTimeoutTimer : Nat
  m_serverStartStep : SERVER_START_STEP
  m_params : ServerParams
  m_deviceName : List Byte
  m_deviceSize : QSize
deriving DecidableEq, Repr

open SERVER_START_STEP ADB_EXEC_RESULT

/-- The kill that precedes each command of `m_workProcess`. -/
def killWorkIfRuning (env : Env) : List Action :=
  if env.workRuning then [Action.workKill] else []

/-- `Server::pushServer`. -/
def pushServer (env : Env) (s : Server) : Bool × Server × List Action :=
  (true, s, killWorkIfRuning env ++ [Action.push s.m_params.serial DEVICE_SERVER_PATH])

/-- `Server::enableTunnelReverse`. -/
def enableTunnelReverse (env : Env) (s : Server) : Bool × Server × List Action :=
  (true, s, killWorkIfRuning env ++
    [Action.reverse s.m_params.serial SOCKET_NAME s.m_params.localPort])

/-- `Server::disableTunnelReverse`. -/
def disableTunnelReverse (s : Server) : Bool × Server × List Action :=
  (true, s, [Action.reverseRemove s.m_params.serial SOCKET_NAME])

/-- `Server::enableTunnelForward`. -/
def enableTunnelForward (env : Env) (s : Server) : Bool × Server × List Action :=
  (true, s, killWorkIfRuning env ++
    [Action.forward s.m_params.serial s.m_params.localPort SOCKET_NAME])

/-- `Server::disableTunnelForward`. -/
def disableTunnelForward (s : Server) : Bool × Server × List Action :=
  (true, s, [Action.forwardRemove s.m_params.serial s.m_params.localPort])

/-- The literal a `bool` argument of the launch command is written as. -/
def boolArg (b : Bool) : String := if b then "true" else "false"

/-- The argument list `Server::execute` builds. -/
def executeArgs (s : Server) : List String :=
  [ "shell",
    "CLASSPATH=" ++ DEVICE_SERVER_PATH,
    "app_process",
    "/",
    "com.genymobile.scrcpy.Server",
    toString s.m_params.maxSize,
    toString s.m_params.bitRate,
    boolArg s.m_tunnelForward,
    if s.m_params.crop.isEmpty then "-" else s.m_params.crop,
    boolArg s.m_params.sendFrameMeta,
    boolArg s.m_params.control ]

/-- `Server::execute`. -/
def execute (env : Env) (s : Server) : Bool × Server × List Action :=
  (true, s, (if env.serverRuning then [Action.serverKill] else []) ++
    [Action.execute s.m_params.serial (executeArgs s)])

/-- `Server::startServerByStep`. -/
def startServerByStep (env : Env) (s : Server) : Bool × Server × List Action :=
  let finish (r : Bool × Server × List Action) : Bool × Server × List Action :=
    if r.1 then r else (r.1, r.2.1, r.2.2 ++ [Action.serverStartResult false])
  match s.m_serverStartStep with
  | SSS_NULL => finish (false, s, [])
  | SSS_PUSH => finish (pushServer env s)
  | SSS_ENABLE_TUNNEL_REVERSE => finish (enableTunnelReverse env s)
  | SSS_ENABLE_TUNNEL_FORWARD => finish (enableTunnelForward env s)
  | SSS_EXECUTE_SERVER =>
    if !s.m_tunnelForward then
      let pre := [Action.setMaxPendingConnections 2, Action.listen s.m_params.localPort]
      if !env.listenOk then
        let s1 := { s with m_serverStartStep := SSS_NULL }
        let r := if s1.m_tunnelForward then disableTunnelForward s1 else disableTunnelReverse s1
        (false, r.2.1, pre ++ r.2.2 ++ [Action.serverStartResult false])
      else
        let s1 := { s with m_serverSocketListening := true }
        let r := execute env s1
        finish (r.1, r.2.1, pre ++ r.2.2)
    else
      finish (execute env s)
  | SSS_RUNNING => finish (false, s, [])

/-- `Server::start`. -/
def start (env : Env) (params : ServerParams) (s : Server) : Bool × Server × List Action :=
  startServerByStep env { s with m_params := params, m_serverStartStep := SSS_PUSH }

/-- `Server::stop`. -/
def stop (s : Server) : Server × List Action :=
  let s1 := { s with m_videoSocket := s.m_videoSocket.map TcpSocket.closeAndDelete }
  let s2 := { s1 with m_controlSocket := s1.m_controlSocket.map TcpSocket.closeAndDelete }
  let kill := [Action.serverKill]
  let r : Server × List Action :=
    if s2.m_tunnelEnabled then
      let d := if s2.m_tunnelForward then disableTunnelForward s2 else disableTunnelReverse s2
      ({ d.2.1 with m_tunnelForward := false, m_tunnelEnabled := false }, d.2.2)
    else (s2, [])
  ({ r.1 with m_serverSocketListening := false }, kill ++ r.2)

/-- The block of `Server::onWorkProcessResult` for the sender `m_workProcess`. -/
def onWorkResult (env : Env) (processResult : ADB_EXEC_RESULT) (s : Server) :
    Server × List Action :=
  match s.m_serverStartStep with
  | SSS_PUSH =>
    if processResult = AER_SUCCESS_EXEC then
      let r := startServerByStep env { s with m_serverStartStep := SSS_ENABLE_TUNNEL_REVERSE }
      (r.2.1, r.2.2)
    else if processResult ≠ AER_SUCCESS_START then
      ({ s with m_serverStartStep := SSS_NULL }, [Action.serverStartResult false])
    else (s, [])
  | SSS_ENABLE_TUNNEL_REVERSE =>
    if processResult = AER_SUCCESS_EXEC then
      let r := startServerByStep env { s with m_serverStartStep := SSS_EXECUTE_SERVER }
      (r.2.1, r.2.2)
    else if processResult ≠ AER_SUCCESS_START then
      let r := startServerByStep env
        { s with m_tunnelForward := true, m_serverStartStep := SSS_ENABLE_TUNNEL_FORWARD }
      (r.2.1, r.2.2)
    else (s, [])
  | SSS_ENABLE_TUNNEL_FORWARD =>
    if processResult = AER_SUCCESS_EXEC then
      let r := startServerByStep env { s with m_serverStartStep := SSS_EXECUTE_SERVER }
      (r.2.1, r.2.2)
    else if processResult ≠ AER_SUCCESS_START then
      ({ s with m_serverStartStep := SSS_NULL }, [Action.serverStartResult false])
    else (s, [])
  | _ => (s, [])

/-- The block of `Server::onWorkProcessResult` for the sender `m_serverProcess`. -/
def onServerResult (processResult : ADB_EXEC_RESULT) (s : Server) : Server × List Action :=
  if s.m_serverStartStep = SSS_EXECUTE_SERVER then
    if processResult = AER_SUCCESS_START then
      ({ s with m_serverStartStep := SSS_RUNNING, m_tunnelEnabled := true },
        [Action.serverStartResult true])
    else if processResult = AER_ERROR_START then
      let r : Server × List Action :=
        if !s.m_tunnelForward then
          let d := disableTunnelReverse { s with m_serverSocketListening := false }
          (d.2.1, d.2.2)
        else
          let d := disableTunnelForward s
          (d.2.1, d.2.2)
      ({ r.1 with m_serverStartStep := SSS_NULL }, r.2 ++ [Action.serverStartResult false])
    else (s, [])
  else if s.m_serverStartStep = SSS_RUNNING then
    ({ s with m_serverStartStep := SSS_NULL }, [Action.onServerStop])
  else (s, [])

/-- `Server::onWorkProcessResult`, with `sender()` as an argument. -/
def onWorkProcessResult (env : Env) (sender : Sender) (processResult : ADB_EXEC_RESULT)
    (s : Server) : Server × List Action :=
  let r1 : Server × List Action :=
    if sender = Sender.workProcess then onWorkResult env processResult s else (s, [])
  let r2 : Server × List Action :=
    if sender = Sender.serverProcess then onServerResult processResult r1.1 else (r1.1, [])
  (r2.1, r1.2 ++ r2.2)

/-! ## Runs of the instance -/

/-- One event of the bootstrap: a result signal of one of the two runners. -/
structure ProcessEvent where
  env : Env
  sender : Sender
  result : ADB_EXEC_RESULT
deriving DecidableEq, Repr

/-- The instance handles the events in order; the actions accumulate. -/
def runEvents : Server → List ProcessEvent → Server × List Action
  | s, [] => (s, [])
  | s, e :: es =>
    let r := onWorkProcessResult e.env e.sender e.result s
    let r2 := runEvents r.1 es
    (r2.1, r.2 ++ r2.2)

/-- The call `start(params)` followed by the events `es`. -/
def startThenRun (env : Env) (params : ServerParams) (s : Server) (es : List ProcessEvent) :
    Server × List Action :=
  let r := start env params s
  let r2 := runEvents r.2.1 es
  (r2.1, r.2.2 ++ r2.2)

/-- The start results among the actions, in order. -/
def startResults (acts : List Action) : List Bool :=
  acts.filterMap (fun a => match a with
    | Action.serverStartResult b => some b
    | _ => none)

/-- The bootstrap commands the steps issue. -/
inductive StepCommand where
  | push
  | reverseEnable
  | forwardEnable
  | launch
deriving DecidableEq, Repr

/-- The bootstrap commands among the actions, in order. -/
def stepCommands (acts : List Action) : List StepCommand :=
  acts.filterMap (fun a => match a with
    | Action.push _ _ => some StepCommand.push
    | Action.reverse _ _ _ => some StepCommand.reverseEnable
    | Action.forward _ _ _ => some StepCommand.forwardEnable
    | Action.execute _ _ => some StepCommand.launch
    | _ => none)

/-- The launch commands among the actions: their argument lists, in order. -/
def launchArgs (acts : List Action) : List (List String) :=
  acts.filterMap (fun a => match a with
    | Action.execute _ args => some args
    | _ => none)

/-- The tunnel-disable commands among the actions. -/
def disableCommands (acts : List Action) : List Action :=
  acts.filter (fun a => match a with
    | Action.reverseRemove _ _ => true
    | Action.forwardRemove _ _ => true
    | _ => false)

/-- The number of "server stopped" notifications among the actions. -/
def stopNotifications (acts : List Action) : Nat :=
  acts.countP (fun a => match a with
    | Action.onServerStop => true
    | _ => false)

/-- A result event of `m_workProcess`. -/
def workEvent (env : Env) (r : ADB_EXEC_RESULT) : ProcessEvent :=
  { env := env, sender := Sender.workProcess, result := r }

/-- A result event of `m_serverProcess`. -/
def serverEvent (env : Env) (r : ADB_EXEC_RESULT) : ProcessEvent :=
  { env := env, sender := Sender.serverProcess, result := r }

/-- An environment with idle runners in which `listen` binds the port. -/
def quietEnv : Env := { workRuning := false, serverRuning := false, listenOk := true }

/-- Some parameters of a session. -/
def sampleParams : ServerParams :=
  { serial := "P7C0218510000537", localPort := 27183, maxSize := 720, bitRate := 8000000,
    crop := "", sendFrameMeta := true, control := true }

/-- An instance that holds no socket, no tunnel and no timer, in step `step`
with tunnel mode `fwd`. -/
def idleServer (step : SERVER_START_STEP) (fwd : Bool) : Server :=
  { m_serverSocketListening := false, m_videoSocket := none, m_controlSocket := none,
    m_tunnelEnabled := false, m_tunnelForward := fwd, m_acceptTimeoutTimer := 0,
    m_serverStartStep := step, m_params := sampleParams, m_deviceName := [],
    m_deviceSize := QSize.null }

/-- The order in which the machine passes through its steps after `start()`. -/
def stepRank : SERVER_START_STEP → Nat
  | SSS_PUSH => 1
  | SSS_ENABLE_TUNNEL_REVERSE => 2
  | SSS_ENABLE_TUNNEL_FORWARD => 3
  | SSS_EXECUTE_SERVER => 4
  | SSS_RUNNING => 5
  | SSS_NULL => 6

/-- Where a bootstrap stands: the step, the bootstrap commands issued so far,
the start results reported so far, the "server stopped" notifications so far. -/
def bootstrapPhase : SERVER_START_STEP → List StepCommand → List Bool → Nat → Prop
  | SSS_PUSH, c, r, n => c = [StepCommand.push] ∧ r = [] ∧ n = 0
  | SSS_ENABLE_TUNNEL_REVERSE, c, r, n =>
    c = [StepCommand.push, StepCommand.reverseEnable] ∧ r = [] ∧ n = 0
  | SSS_ENABLE_TUNNEL_FORWARD, c, r, n =>
    c = [StepCommand.push, StepCommand.reverseEnable, StepCommand.forwardEnable] ∧
      r = [] ∧ n = 0
  | SSS_EXECUTE_SERVER, c, r, n =>
    (c = [StepCommand.push, StepCommand.reverseEnable, StepCommand.launch] ∨
      c = [StepCommand.push, StepCommand.reverseEnable, StepCommand.forwardEnable,
        StepCommand.launch]) ∧ r = [] ∧ n = 0
  | SSS_RUNNING, c, r, n =>
    (c = [StepCommand.push, StepCommand.reverseEnable, StepCommand.launch] ∨
      c = [StepCommand.push, StepCommand.reverseEnable, StepCommand.forwardEnable,
        StepCommand.launch]) ∧ r = [true] ∧ n = 0
  | SSS_NULL, c, r, n =>
    ((c = [StepCommand.push] ∨
      c = [StepCommand.push, StepCommand.reverseEnable] ∨
      c = [StepCommand.push, StepCommand.reverseEnable, StepCommand.forwardEnable] ∨
      c = [StepCommand.push, StepCommand.reverseEnable, StepCommand.launch] ∨
      c = [StepCommand.push, StepCommand.reverseEnable, StepCommand.forwardEnable,
        StepCommand.launch]) ∧ r = [false] ∧ n = 0) ∨
    ((c = [StepCommand.push, StepCommand.reverseEnable, StepCommand.launch] ∨
      c = [StepCommand.push, StepCommand.reverseEnable, StepCommand.forwardEnable,
        StepCommand.launch]) ∧ r = [true] ∧ n = 1)

/-! ## The socket handshake -/

/-- The call `isValid()` on a socket. -/
def TcpSocket.isValid (s : TcpSocket) : Bool := s.isOpen

/-- What `m_serverSocket.nextPendingConnection()` returns: a null pointer, or
a socket whose dynamic type is `VideoSocket`, or a socket of another type. -/
inductive Pending where
  | null
  | video (sock : VideoSocket)
  | plain (sock : TcpSocket)
deriving DecidableEq, Repr

/-- `Server::stopAcceptTimeoutTimer`. -/
def stopAcceptTimeoutTimer (s : Server) : Server × List Action :=
  if s.m_acceptTimeoutTimer ≠ 0 then
    ({ s with m_acceptTimeoutTimer := 0 }, [Action.killTimer s.m_acceptTimeoutTimer])
  else (s, [])

/-- `Server::startAcceptTimeoutTimer`; `timerId` is what `startTimer(1000)` returns. -/
def startAcceptTimeoutTimer (timerId : Nat) (s : Server) : Server × List Action :=
  let r := stopAcceptTimeoutTimer s
  ({ r.1 with m_acceptTimeoutTimer := timerId }, r.2 ++ [Action.startTimer 1000])

/-- `Server::timerEvent`; `event` is the timer id of the event, `none` for a null event. -/
def timerEvent (event : Option Nat) (s : Server) : Server × List Action :=
  match event with
  | none => (s, [])
  | some id =>
    if s.m_acceptTimeoutTimer = id then
      let r := stopAcceptTimeoutTimer s
      (r.1, r.2 ++ [Action.connectToResult false [] QSize.null])
    else (s, [])

/-- The handler of `QTcpServer::newConnection` that the constructor installs
(lines 19-43). The one-argument `emit connectToResult(false)` carries the
default name and size. -/
def onNewConnection (tmp : Pending) (s : Server) : Server × List Action :=
  match tmp with
  | Pending.video sock =>
    let s1 := { s with m_videoSocket := some sock }
    if !sock.isValid then
      let r := stop s1
      (r.1, r.2 ++ [Action.connectToResult false [] QSize.null])
    else
      let ri := readInfo sock s1.m_deviceName s1.m_deviceSize
      let s2 := { s1 with
        m_videoSocket := some ri.2.2.2, m_deviceName := ri.2.1, m_deviceSize := ri.2.2.1 }
      if !ri.1 then
        let r := stop s2
        (r.1, r.2 ++ [Action.connectToResult false [] QSize.null])
      else (s2, [])
  | other =>
    let ctl : Option TcpSocket :=
      match other with
      | Pending.plain sock => some sock
      | _ => none
    let s1 := { s with m_controlSocket := ctl }
    let r : Server × List Action :=
      if (match ctl with
          | some sock => sock.isValid
          | none => false) then
        let s2 := { s1 with m_serverSocketListening := false }
        let d := disableTunnelReverse s2
        ({ d.2.1 with m_tunnelEnabled := false },
          d.2.2 ++ [Action.connectToResult true s2.m_deviceName s2.m_deviceSize])
      else
        let r := stop s1
        (r.1, r.2 ++ [Action.connectToResult false [] QSize.null])
    let t := stopAcceptTimeoutTimer r.1
    (t.1, r.2 ++ t.2)

/-- `Server::connectTo`; `timerId` is what `startTimer(1000)` returns when the
accept-timeout guard is started. -/
def connectTo (timerId : Nat) (s : Server) : Bool × Server × List Action :=
  if s.m_serverStartStep ≠ SSS_RUNNING then (false, s, [])
  else if !s.m_tunnelForward && s.m_videoSocket.isNone then
    let r := startAcceptTimeoutTimer timerId s
    (true, r.1, r.2)
  else (true, s, [Action.singleShot 1000])

/-- What the delayed handshake meets when it runs: the two sockets it creates,
as they are once `connectToHost` and `waitForConnected(1000)` are over, the
results of the two waits, and whether the video socket is in `ConnectedState`. -/
structure HandshakeEnv where
  video : VideoSocket
  videoConnected : Bool
  videoStateConnected : Bool
  control : TcpSocket
  controlConnected : Bool
deriving DecidableEq, Repr

/-- Lines 185-201 of the delayed handshake: the priming byte and the header.
The result is `success`, the local `deviceName` and `deviceSize`, and the
video socket afterwards. -/
def handshakeReadVideo (h : HandshakeEnv) : Bool × List Byte × QSize × VideoSocket :=
  if h.videoStateConnected then
    let v1 := h.video.waitForReadyRead
    let d := v1.read 1
    if !d.1.isEmpty then readInfo d.2 [] QSize.null
    else (false, [], QSize.null, d.2)
  else (false, [], QSize.null, { h.video with deleteLater := true })

/-- The function that `connectTo` hands to `QTimer::singleShot` (lines 171-221). -/
def connectToDelayed (h : HandshakeEnv) (s : Server) : Server × List Action :=
  let s1 := { s with m_videoSocket := some h.video }
  let a1 := [Action.videoConnectToHost s1.m_params.localPort]
  if !h.videoConnected then
    let r := stop s1
    (r.1, a1 ++ r.2 ++ [Action.connectToResult false [] QSize.null])
  else
    let v := handshakeReadVideo h
    let s2 := { s1 with m_videoSocket := some v.2.2.2, m_controlSocket := some h.control }
    let a2 := a1 ++ [Action.controlConnectToHost s2.m_params.localPort]
    if !h.controlConnected then
      let r := stop s2
      (r.1, a2 ++ r.2 ++ [Action.connectToResult false [] QSize.null])
    else if v.1 then
      let d := disableTunnelForward s2
      ({ d.2.1 with m_tunnelEnabled := false },
        a2 ++ d.2.2 ++ [Action.connectToResult true v.2.1 v.2.2.1])
    else
      let r := stop s2
      (r.1, a2 ++ r.2 ++ [Action.connectToResult v.1 v.2.1 v.2.2.1])

/-- The conditions under which the delayed handshake is to succeed: the video
socket connects, one priming byte is read, the read of the header that
follows delivers 68 bytes, and the control socket connects. -/
def handshakeComplete (h : HandshakeEnv) : Prop :=
  h.videoConnected = true ∧ h.videoStateConnected = true ∧
  (h.video.waitForReadyRead.read 1).1 ≠ [] ∧
  (readInfoRead (h.video.waitForReadyRead.read 1).2).1.length = 68 ∧
  h.controlConnected = true

/-- The connect results among the actions, in order. -/
def connectResults (acts : List Action) : List (Bool × List Byte × QSize) :=
  acts.filterMap (fun a => match a with
    | Action.connectToResult ok name size => some (ok, name, size)
    | _ => none)

/-- The outbound connections among the actions. -/
def outboundConnects (acts : List Action) : List Action :=
  acts.filter (fun a => match a with
    | Action.singleShot _ => true
    | Action.videoConnectToHost _ => true
    | Action.controlConnectToHost _ => true
    | _ => false)

/-- Whether a socket pointer is null or points to a closed socket. -/
def socketClosed (o : Option TcpSocket) : Bool :=
  match o with
  | none => true
  | some sock => !sock.isOpen

/-! ## Calls and events in any order -/

/-- A call of the public interface or an event delivered to the instance. -/
inductive Input where
  | start (env : Env) (params : ServerParams)
  | connectTo (timerId : Nat)
  | stop
  | processResult (e : ProcessEvent)
  | newConnection (tmp : Pending)
  | timer (event : Option Nat)
  | delayedHandshake (h : HandshakeEnv)
deriving DecidableEq, Repr

/-- The instance takes one call or event. -/
def step (s : Server) : Input → Server × List Action
  | Input.start env params => (start env params s).2
  | Input.connectTo timerId => (connectTo timerId s).2
  | Input.stop => stop s
  | Input.processResult e => onWorkProcessResult e.env e.sender e.result s
  | Input.newConnection tmp => onNewConnection tmp s
  | Input.timer event => timerEvent event s
  | Input.delayedHandshake h => connectToDelayed h s

/-- The instance takes the calls and events in order; the actions accumulate. -/
def run : Server → List Input → Server × List Action
  | s, [] => (s, [])
  | s, i :: is =>
    let r := step s i
    let r2 := run r.1 is
    (r2.1, r.2 ++ r2.2)

/-- The number of tunnel-disable commands that the `stop()` calls of a run issue. -/
def stopDisableCount : Server → List Input → Nat
  | _, [] => 0
  | s, i :: is =>
    (match i with
      | Input.stop => (disableCommands (stop s).2).length
      | _ => 0) + stopDisableCount (step s i).1 is

/-- The number of calls and events of a run at which the tunnel goes from
marked disabled to marked enabled. -/
def markCount : Server → List Input → Nat
  | _, [] => 0
  | s, i :: is =>
    (if !s.m_tunnelEnabled && (step s i).1.m_tunnelEnabled then 1 else 0) +
      markCount (step s i).1 is

/-- A running instance in reverse mode: listener bound, tunnel marked enabled,
no socket accepted yet, no guard armed. -/
def runningReverse : Server :=
  { idleServer SSS_RUNNING false with m_serverSocketListening := true, m_tunnelEnabled := true }

/-- A running instance in forward mode: tunnel marked enabled, no socket yet. -/
def runningForward : Server :=
  { idleServer SSS_RUNNING true with m_tunnelEnabled := true }

/-- An open control socket with nothing to read. -/
def openSocket : TcpSocket := socketHolding []

/-- A forward-mode handshake in which both sockets connect and the video
socket delivers the priming byte and then the header `header`. -/
def goodHandshake (header : List Byte) : HandshakeEnv :=
  { video := { socketHolding [] with arriving := [[0], header] },
    videoConnected := true, videoStateConnected := true,
    control := openSocket, controlConnected := true }

end QtScrcpy

namespace QtScrcpy

open SERVER_START_STEP ADB_EXEC_RESULT

/-! ## Header parsing -/

theorem be16_eq (hi lo : Byte) : be16 hi lo = 256 * (hi.val : Int) + (lo.val : Int) := by
  unfold be16
  have h : hi.val <<< 8 ||| lo.val = 2 ^ 8 * hi.val + lo.val := by
    rw [Nat.shiftLeft_eq, Nat.mul_comm]
    exact (Nat.mul_add_lt_is_or (by simp) hi.val).symm
  rw [h]
  push_cast
  ring

theorem takeWhile_append_stop {α : Type} (p : α → Bool) (a : List α) (x : α) (r : List α)
    (hx : p x = false) : (a ++ x :: r).takeWhile p = a.takeWhile p := by
  induction a with
  | nil => simp [List.takeWhile, hx]
  | cons y ys ih =>
    simp only [List.cons_append, List.takeWhile]
    cases p y <;> simp [ih]

theorem set_eq_take_append (l : List Byte) (n : Nat) (x : Byte) (h : n < l.length) :
    l.set n x = l.take n ++ x :: l.drop (n + 1) := by
  induction l generalizing n with
  | nil => simp at h
  | cons y ys ih =>
    cases n with
    | zero => simp
    | succ m =>
      simp only [List.length_cons, Nat.add_lt_add_iff_right] at h
      simp [ih m h]

theorem cString_terminated (l : List Byte) (h : 63 < l.length) :
    cString (l.set 63 0) = (l.take 63).takeWhile (fun b => b != 0) := by
  unfold cString
  rw [set_eq_take_append l 63 0 h]
  exact takeWhile_append_stop _ _ _ _ (by decide)

theorem read_length_le (sock : TcpSocket) (maxlen : Nat) :
    (sock.read maxlen).1.length ≤ maxlen := by
  cases h : sock.isOpen <;> simp [TcpSocket.read, h, List.length_take]

theorem readInfoRead_length_le (sock : VideoSocket) : (readInfoRead sock).1.length ≤ 68 :=
  read_length_le _ _

/-- C1: whenever the read of `readInfo` delivers a buffer `b` of 68 bytes,
`readInfo` succeeds, the width is `256*b[64] + b[65]`, the height is
`256*b[66] + b[67]`, and the name is the part of `b[0..62]` before its first
zero byte: all 63 bytes when none is zero, never more than 63 bytes, and a
prefix of the first 63 bytes, so byte 63 is never part of it. -/
theorem readInfo_parses_header (sock : VideoSocket) (deviceName : List Byte) (size : QSize)
    (b : List Byte) (hread : (readInfoRead sock).1 = b) (hlen : b.length = 68) :
    (readInfo sock deviceName size).1 = true ∧
    (readInfo sock deviceName size).2.2.1 =
      { width := 256 * ((b.getD 64 0).val : Int) + ((b.getD 65 0).val : Int),
        height := 256 * ((b.getD 66 0).val : Int) + ((b.getD 67 0).val : Int) } ∧
    (readInfo sock deviceName size).2.1 = (b.take 63).takeWhile (fun x => x != 0) ∧
    ((∀ x ∈ b.take 63, x ≠ 0) → (readInfo sock deviceName size).2.1 = b.take 63) ∧
    (readInfo sock deviceName size).2.1.length ≤ 63 ∧
    (readInfo sock deviceName size).2.1 <+: b.take 63 := by
  have hname : (readInfo sock deviceName size).2.1 = (b.take 63).takeWhile (fun x => x != 0) := by
    subst hread
    simp only [readInfo, DEVICE_NAME_FIELD_LENGTH, hlen]
    simpa using cString_terminated _ (by omega)
  refine ⟨?_, ?_, hname, ?_, ?_, ?_⟩
  · subst hread
    simp [readInfo, DEVICE_NAME_FIELD_LENGTH, hlen]
  · subst hread
    simp only [readInfo, DEVICE_NAME_FIELD_LENGTH, hlen]
    simp [be16_eq, List.getD_eq_getElem?_getD, List.getElem?_set]
  · intro hnz
    rw [hname, List.takeWhile_eq_self_iff]
    intro x hx
    simpa using hnz x hx
  · rw [hname]
    exact List.IsPrefix.length_le ( List.takeWhile_prefix _) |>.trans (by simp)
  · rw [hname]
    exact List.takeWhile_prefix _

/-- C1, at the header of the device "pixel": the 68 bytes "pixel", 59 zero
bytes, 04 38, 08 E8 parse to the name "pixel" and the size (1080, 2280). -/
theorem readInfo_parses_header_witness :
    (readInfoRead (socketHolding pixelHeader)).1 = pixelHeader ∧
    pixelHeader.length = 68 ∧
    (readInfo (socketHolding pixelHeader) [] QSize.null).1 = true ∧
    (readInfo (socketHolding pixelHeader) [] QSize.null).2.2.1 = { width := 1080, height := 2280 } ∧
    (readInfo (socketHolding pixelHeader) [] QSize.null).2.1 = asciiBytes "pixel" :=
  have h := readInfo_parses_header (socketHolding pixelHeader) [] QSize.null pixelHeader
    (by decide) (by decide)
  ⟨by decide, by decide, h.1, h.2.1.trans (by decide), h.2.2.1.trans (by decide)⟩

/-- C2: whenever the read of `readInfo` delivers fewer than 68 bytes after the
bounded wait, `readInfo` returns false and the caller's device name and size
come back exactly as they went in. -/
theorem readInfo_short_read_fails (sock : VideoSocket) (deviceName : List Byte) (size : QSize)
    (hshort : (readInfoRead sock).1.length < 68) :
    (readInfo sock deviceName size).1 = false ∧
    (readInfo sock deviceName size).2.1 = deviceName ∧
    (readInfo sock deviceName size).2.2.1 = size := by
  simp [readInfo, DEVICE_NAME_FIELD_LENGTH, hshort]

/-- C2, at a socket that holds 5 bytes and receives 62 more during the wait. -/
theorem readInfo_short_read_fails_witness :
    (readInfoRead { socketHolding (asciiBytes "pixel") with
        arriving := [List.replicate 62 7] }).1.length < 68 ∧
    (readInfo { socketHolding (asciiBytes "pixel") with arriving := [List.replicate 62 7] }
      (asciiBytes "old") { width := 720, height := 1280 }).1 = false ∧
    (readInfo { socketHolding (asciiBytes "pixel") with arriving := [List.replicate 62 7] }
      (asciiBytes "old") { width := 720, height := 1280 }).2.1 = asciiBytes "old" ∧
    (readInfo { socketHolding (asciiBytes "pixel") with arriving := [List.replicate 62 7] }
      (asciiBytes "old") { width := 720, height := 1280 }).2.2.1 =
        { width := 720, height := 1280 } :=
  ⟨by decide, readInfo_short_read_fails _ _ _ (by decide)⟩

/-! ## Single transitions of the bootstrap -/

/-- C4: in EnableTunnelReverse, an outcome of the reverse-enable command other
than ExecSucceeded and StartSucceeded sets the tunnel mode to Forward, moves to
EnableTunnelForward, issues the forward-enable command and reports no start
result; when forward-enable then reports ExecSucceeded, the machine moves to
ExecuteServer without binding the listener and issues one launch command, whose
tunnel-forward argument (position 7) is "true". -/
theorem reverse_failure_falls_back_to_forward (env env2 : Env) (s : Server)
    (r : ADB_EXEC_RESULT) (hstep : s.m_serverStartStep = SSS_ENABLE_TUNNEL_REVERSE)
    (hexec : r ≠ AER_SUCCESS_EXEC) (hstart : r ≠ AER_SUCCESS_START) :
    (onWorkProcessResult env Sender.workProcess r s).1 =
      { s with m_tunnelForward := true, m_serverStartStep := SSS_ENABLE_TUNNEL_FORWARD } ∧
    (onWorkProcessResult env Sender.workProcess r s).2 =
      killWorkIfRuning env ++
        [Action.forward s.m_params.serial s.m_params.localPort SOCKET_NAME] ∧
    startResults (onWorkProcessResult env Sender.workProcess r s).2 = [] ∧
    (onWorkProcessResult env2 Sender.workProcess AER_SUCCESS_EXEC
      (onWorkProcessResult env Sender.workProcess r s).1).1 =
      { s with m_tunnelForward := true, m_serverStartStep := SSS_EXECUTE_SERVER } ∧
    (∀ port, Action.listen port ∉
      (onWorkProcessResult env2 Sender.workProcess AER_SUCCESS_EXEC
        (onWorkProcessResult env Sender.workProcess r s).1).2) ∧
    (launchArgs (onWorkProcessResult env2 Sender.workProcess AER_SUCCESS_EXEC
      (onWorkProcessResult env Sender.workProcess r s).1).2).map (fun args => args.get? 7) =
      [some "true"] := by
  have h1 : onWorkProcessResult env Sender.workProcess r s =
      ({ s with m_tunnelForward := true, m_serverStartStep := SSS_ENABLE_TUNNEL_FORWARD },
        killWorkIfRuning env ++
          [Action.forward s.m_params.serial s.m_params.localPort SOCKET_NAME]) := by
    simp [onWorkProcessResult, onWorkResult, hstep, hexec, hstart, startServerByStep,
      enableTunnelForward]
  rw [h1]
  refine ⟨rfl, rfl, ?_, ?_, ?_, ?_⟩
  · cases env.workRuning <;> simp [startResults, killWorkIfRuning]
  · simp [onWorkProcessResult, onWorkResult, startServerByStep, execute]
  · intro port
    cases h : env2.serverRuning <;>
      simp [onWorkProcessResult, onWorkResult, startServerByStep, execute, h]
  · cases h : env2.serverRuning <;>
      simp [onWorkProcessResult, onWorkResult, startServerByStep, execute, h, launchArgs,
        executeArgs, boolArg]

/-- C4, at an idle instance in EnableTunnelReverse whose reverse-enable command
reports ExecFailed. -/
theorem reverse_failure_falls_back_to_forward_witness :
    (onWorkProcessResult quietEnv Sender.workProcess AER_ERROR_EXEC
      (idleServer SSS_ENABLE_TUNNEL_REVERSE false)).1 =
      idleServer SSS_ENABLE_TUNNEL_FORWARD true ∧
    (launchArgs (onWorkProcessResult quietEnv Sender.workProcess AER_SUCCESS_EXEC
      (onWorkProcessResult quietEnv Sender.workProcess AER_ERROR_EXEC
        (idleServer SSS_ENABLE_TUNNEL_REVERSE false)).1).2).map (fun args => args.get? 7) =
      [some "true"] :=
  have h := reverse_failure_falls_back_to_forward quietEnv quietEnv
    (idleServer SSS_ENABLE_TUNNEL_REVERSE false) AER_ERROR_EXEC rfl (by decide) (by decide)
  ⟨h.1, h.2.2.2.2.2⟩

/-- C6 as stated fails: in ExecuteServer (reverse mode, listener bound) an
ExecFailed event of the launch command leaves the machine in ExecuteServer,
keeps the listener, issues no tunnel-disable command and reports no result. -/
theorem launch_exec_failed_is_ignored :
    (onWorkProcessResult quietEnv Sender.serverProcess AER_ERROR_EXEC
      { idleServer SSS_EXECUTE_SERVER false with m_serverSocketListening := true }).1 =
      { idleServer SSS_EXECUTE_SERVER false with m_serverSocketListening := true } ∧
    (onWorkProcessResult quietEnv Sender.serverProcess AER_ERROR_EXEC
      { idleServer SSS_EXECUTE_SERVER false with m_serverSocketListening := true }).1.m_serverStartStep
      ≠ SSS_NULL ∧
    (onWorkProcessResult quietEnv Sender.serverProcess AER_ERROR_EXEC
      { idleServer SSS_EXECUTE_SERVER false with m_serverSocketListening := true }).2 = [] := by
  decide

/-- C6, amended: in ExecuteServer, StartSucceeded from the launch command moves
to Running, marks the tunnel enabled and reports exactly one start success and
nothing else; StartFailed from the launch command moves to Null, issues the
disable command of the tunnel mode in use (in reverse mode the listener is
closed as well) and reports exactly one start failure. -/
theorem launch_start_outcome (env : Env) (s : Server)
    (hstep : s.m_serverStartStep = SSS_EXECUTE_SERVER) :
    onWorkProcessResult env Sender.serverProcess AER_SUCCESS_START s =
      ({ s with m_serverStartStep := SSS_RUNNING, m_tunnelEnabled := true },
        [Action.serverStartResult true]) ∧
    (s.m_tunnelForward = false →
      onWorkProcessResult env Sender.serverProcess AER_ERROR_START s =
        ({ s with m_serverSocketListening := false, m_serverStartStep := SSS_NULL },
          [Action.reverseRemove s.m_params.serial SOCKET_NAME,
           Action.serverStartResult false])) ∧
    (s.m_tunnelForward = true →
      onWorkProcessResult env Sender.serverProcess AER_ERROR_START s =
        ({ s with m_serverStartStep := SSS_NULL },
          [Action.forwardRemove s.m_params.serial s.m_params.localPort,
           Action.serverStartResult false])) := by
  refine ⟨?_, ?_, ?_⟩
  · simp [onWorkProcessResult, onServerResult, hstep]
  · intro hmode
    simp [onWorkProcessResult, onServerResult, hstep, hmode, disableTunnelReverse]
  · intro hmode
    simp [onWorkProcessResult, onServerResult, hstep, hmode, disableTunnelForward]

/-- C6, amended, at an instance in ExecuteServer in reverse mode with the
listener bound. -/
theorem launch_start_outcome_witness :
    onWorkProcessResult quietEnv Sender.serverProcess AER_SUCCESS_START
      { idleServer SSS_EXECUTE_SERVER false with m_serverSocketListening := true } =
      ({ idleServer SSS_RUNNING false with
          m_serverSocketListening := true, m_tunnelEnabled := true },
        [Action.serverStartResult true]) ∧
    onWorkProcessResult quietEnv Sender.serverProcess AER_ERROR_START
      { idleServer SSS_EXECUTE_SERVER false with m_serverSocketListening := true } =
      (idleServer SSS_NULL false,
        [Action.reverseRemove sampleParams.serial SOCKET_NAME,
         Action.serverStartResult false]) :=
  have h := launch_start_outcome quietEnv
    { idleServer SSS_EXECUTE_SERVER false with m_serverSocketListening := true } rfl
  ⟨h.1, h.2.1 rfl⟩

/-- C7: in ExecuteServer with mode Reverse, when `listen` on the configured
port fails, the step moves the machine to Null, issues the reverse-tunnel
disable command, reports exactly one start failure and returns false; no launch
command is issued. -/
theorem listen_failure_aborts_launch (env : Env) (s : Server)
    (hstep : s.m_serverStartStep = SSS_EXECUTE_SERVER) (hmode : s.m_tunnelForward = false)
    (hbind : env.listenOk = false) :
    startServerByStep env s =
      (false, { s with m_serverStartStep := SSS_NULL },
        [Action.setMaxPendingConnections 2, Action.listen s.m_params.localPort,
         Action.reverseRemove s.m_params.serial SOCKET_NAME,
         Action.serverStartResult false]) ∧
    startResults (startServerByStep env s).2.2 = [false] ∧
    disableCommands (startServerByStep env s).2.2 =
      [Action.reverseRemove s.m_params.serial SOCKET_NAME] ∧
    launchArgs (startServerByStep env s).2.2 = [] := by
  have h : startServerByStep env s =
      (false, { s with m_serverStartStep := SSS_NULL },
        [Action.setMaxPendingConnections 2, Action.listen s.m_params.localPort,
         Action.reverseRemove s.m_params.serial SOCKET_NAME,
         Action.serverStartResult false]) := by
    simp [startServerByStep, hstep, hmode, hbind, disableTunnelReverse]
  rw [h]
  simp [startResults, disableCommands, launchArgs]

/-- C7, at an idle instance in ExecuteServer in reverse mode whose port is taken. -/
theorem listen_failure_aborts_launch_witness :
    startServerByStep { quietEnv with listenOk := false } (idleServer SSS_EXECUTE_SERVER false) =
      (false, idleServer SSS_NULL false,
        [Action.setMaxPendingConnections 2, Action.listen 27183,
         Action.reverseRemove sampleParams.serial SOCKET_NAME,
         Action.serverStartResult false]) :=
  (listen_failure_aborts_launch { quietEnv with listenOk := false }
    (idleServer SSS_EXECUTE_SERVER false) rfl rfl rfl).1

/-- C8: in Running, every event of the launch command moves the machine to
Null and emits exactly one "server stopped" notification and nothing else, so
no start result. -/
theorem running_exit_notifies_stop (env : Env) (s : Server) (r : ADB_EXEC_RESULT)
    (hstep : s.m_serverStartStep = SSS_RUNNING) :
    onWorkProcessResult env Sender.serverProcess r s =
      ({ s with m_serverStartStep := SSS_NULL }, [Action.onServerStop]) ∧
    stopNotifications (onWorkProcessResult env Sender.serverProcess r s).2 = 1 ∧
    startResults (onWorkProcessResult env Sender.serverProcess r s).2 = [] := by
  have h : onWorkProcessResult env Sender.serverProcess r s =
      ({ s with m_serverStartStep := SSS_NULL }, [Action.onServerStop]) := by
    simp [onWorkProcessResult, onServerResult, hstep]
  rw [h]
  simp [stopNotifications, startResults]

/-- C8, at a running instance whose launch command reports ExecFailed. -/
theorem running_exit_notifies_stop_witness :
    onWorkProcessResult quietEnv Sender.serverProcess AER_ERROR_EXEC
      { idleServer SSS_RUNNING false with m_tunnelEnabled := true } =
      ({ idleServer SSS_NULL false with m_tunnelEnabled := true }, [Action.onServerStop]) :=
  (running_exit_notifies_stop quietEnv
    { idleServer SSS_RUNNING false with m_tunnelEnabled := true } AER_ERROR_EXEC rfl).1

/-! ## Stopping -/

/-- C10: `stop()` is idempotent: the state after two calls is the state after
one, and the second call issues no tunnel-disable command. -/
theorem stop_idempotent (s : Server) :
    (stop (stop s).1).1 = (stop s).1 ∧ disableCommands (stop (stop s).1).2 = [] := by
  have hclose : ∀ o : Option TcpSocket,
      (o.map TcpSocket.closeAndDelete).map TcpSocket.closeAndDelete =
        o.map TcpSocket.closeAndDelete := by
    intro o
    cases o <;> rfl
  cases hen : s.m_tunnelEnabled <;> cases hfw : s.m_tunnelForward <;>
    simp [stop, hen, hfw, hclose, disableTunnelForward, disableTunnelReverse, disableCommands]

/-! ## Runs of the bootstrap -/

theorem stepCommands_append (a b : List Action) :
    stepCommands (a ++ b) = stepCommands a ++ stepCommands b := by
  simp [stepCommands]

theorem startResults_append (a b : List Action) :
    startResults (a ++ b) = startResults a ++ startResults b := by
  simp [startResults]

theorem stopNotifications_append (a b : List Action) :
    stopNotifications (a ++ b) = stopNotifications a + stopNotifications b := by
  simp [stopNotifications]

theorem killWorkIfRuning_silent (env : Env) :
    stepCommands (killWorkIfRuning env) = [] ∧ startResults (killWorkIfRuning env) = [] ∧
    stopNotifications (killWorkIfRuning env) = 0 := by
  cases h : env.workRuning <;> simp [killWorkIfRuning, h, stepCommands, startResults,
    stopNotifications]

/-- What `startServerByStep` shows of itself in each bootstrap step. -/
theorem startServerByStep_observed (env : Env) (s : Server) :
    (s.m_serverStartStep = SSS_PUSH →
      (startServerByStep env s).2.1.m_serverStartStep = SSS_PUSH ∧
      stepCommands (startServerByStep env s).2.2 = [StepCommand.push] ∧
      startResults (startServerByStep env s).2.2 = [] ∧
      stopNotifications (startServerByStep env s).2.2 = 0) ∧
    (s.m_serverStartStep = SSS_ENABLE_TUNNEL_REVERSE →
      (startServerByStep env s).2.1.m_serverStartStep = SSS_ENABLE_TUNNEL_REVERSE ∧
      stepCommands (startServerByStep env s).2.2 = [StepCommand.reverseEnable] ∧
      startResults (startServerByStep env s).2.2 = [] ∧
      stopNotifications (startServerByStep env s).2.2 = 0) ∧
    (s.m_serverStartStep = SSS_ENABLE_TUNNEL_FORWARD →
      (startServerByStep env s).2.1.m_serverStartStep = SSS_ENABLE_TUNNEL_FORWARD ∧
      stepCommands (startServerByStep env s).2.2 = [StepCommand.forwardEnable] ∧
      startResults (startServerByStep env s).2.2 = [] ∧
      stopNotifications (startServerByStep env s).2.2 = 0) ∧
    (s.m_serverStartStep = SSS_EXECUTE_SERVER →
      stopNotifications (startServerByStep env s).2.2 = 0 ∧
      (((startServerByStep env s).2.1.m_serverStartStep = SSS_EXECUTE_SERVER ∧
        stepCommands (startServerByStep env s).2.2 = [StepCommand.launch] ∧
        startResults (startServerByStep env s).2.2 = []) ∨
       (s.m_tunnelForward = false ∧
        (startServerByStep env s).2.1.m_serverStartStep = SSS_NULL ∧
        stepCommands (startServerByStep env s).2.2 = [] ∧
        startResults (startServerByStep env s).2.2 = [false]))) := by
  have hk := killWorkIfRuning_silent env
  refine ⟨?_, ?_, ?_, ?_⟩
  · intro h
    simp [startServerByStep, h, pushServer, stepCommands_append, startResults_append,
      stopNotifications_append, hk]
    simp [stepCommands, startResults, stopNotifications]
  · intro h
    simp [startServerByStep, h, enableTunnelReverse, stepCommands_append, startResults_append,
      stopNotifications_append, hk]
    simp [stepCommands, startResults, stopNotifications]
  · intro h
    simp [startServerByStep, h, enableTunnelForward, stepCommands_append, startResults_append,
      stopNotifications_append, hk]
    simp [stepCommands, startResults, stopNotifications]
  · intro h
    cases hf : s.m_tunnelForward <;> cases hl : env.listenOk <;> cases hr : env.serverRuning <;>
      simp [startServerByStep, h, hf, hl, hr, execute, disableTunnelReverse, stepCommands,
        startResults, stopNotifications]

theorem onWorkProcessResult_work (env : Env) (r : ADB_EXEC_RESULT) (s : Server) :
    onWorkProcessResult env Sender.workProcess r s = onWorkResult env r s := by
  simp [onWorkProcessResult]

theorem onWorkProcessResult_server (env : Env) (r : ADB_EXEC_RESULT) (s : Server) :
    onWorkProcessResult env Sender.serverProcess r s = onServerResult r s := by
  simp [onWorkProcessResult]

theorem bootstrapPhase_work (env : Env) (res : ADB_EXEC_RESULT) (s : Server)
    (c : List StepCommand) (r : List Bool) (n : Nat)
    (h : bootstrapPhase s.m_serverStartStep c r n) :
    bootstrapPhase (onWorkResult env res s).1.m_serverStartStep
      (c ++ stepCommands (onWorkResult env res s).2)
      (r ++ startResults (onWorkResult env res s).2)
      (n + stopNotifications (onWorkResult env res s).2) := by
  cases hs : s.m_serverStartStep <;> rw [hs] at h
  · simpa [onWorkResult, hs, stepCommands, startResults, stopNotifications] using h
  · obtain ⟨hc, hr, hn⟩ := h
    subst hc hr hn
    have ho := (startServerByStep_observed env
      { s with m_serverStartStep := SSS_ENABLE_TUNNEL_REVERSE }).2.1 rfl
    cases res
    · simp [onWorkResult, hs, bootstrapPhase, stepCommands, startResults, stopNotifications]
    · simp [onWorkResult, hs, bootstrapPhase, stepCommands, startResults, stopNotifications]
    · simp [onWorkResult, hs, bootstrapPhase, ho]
    · simp [onWorkResult, hs, bootstrapPhase, stepCommands, startResults, stopNotifications]
  · obtain ⟨hc, hr, hn⟩ := h
    subst hc hr hn
    have ho := (startServerByStep_observed env
      { s with m_tunnelForward := true, m_serverStartStep := SSS_ENABLE_TUNNEL_FORWARD }).2.2.1 rfl
    have he := (startServerByStep_observed env
      { s with m_serverStartStep := SSS_EXECUTE_SERVER }).2.2.2 rfl
    cases res
    · simp [onWorkResult, hs, bootstrapPhase, stepCommands, startResults, stopNotifications]
    · simp [onWorkResult, hs, bootstrapPhase, ho]
    · rcases he with ⟨h0, ⟨h1, h2, h3⟩ | ⟨_, h1, h2, h3⟩⟩ <;>
        simp [onWorkResult, hs, bootstrapPhase, h0, h1, h2, h3]
    · simp [onWorkResult, hs, bootstrapPhase, ho]
  · obtain ⟨hc, hr, hn⟩ := h
    subst hc hr hn
    have he := (startServerByStep_observed env
      { s with m_serverStartStep := SSS_EXECUTE_SERVER }).2.2.2 rfl
    cases res
    · simp [onWorkResult, hs, bootstrapPhase, stepCommands, startResults, stopNotifications]
    · simp [onWorkResult, hs, bootstrapPhase, stepCommands, startResults, stopNotifications]
    · rcases he with ⟨h0, ⟨h1, h2, h3⟩ | ⟨_, h1, h2, h3⟩⟩ <;>
        simp [onWorkResult, hs, bootstrapPhase, h0, h1, h2, h3]
    · simp [onWorkResult, hs, bootstrapPhase, stepCommands, startResults, stopNotifications]
  · simpa [onWorkResult, hs, stepCommands, startResults, stopNotifications] using h
  · simpa [onWorkResult, hs, stepCommands, startResults, stopNotifications] using h

theorem bootstrapPhase_server (res : ADB_EXEC_RESULT) (s : Server)
    (c : List StepCommand) (r : List Bool) (n : Nat)
    (h : bootstrapPhase s.m_serverStartStep c r n) :
    bootstrapPhase (onServerResult res s).1.m_serverStartStep
      (c ++ stepCommands (onServerResult res s).2)
      (r ++ startResults (onServerResult res s).2)
      (n + stopNotifications (onServerResult res s).2) := by
  cases hs : s.m_serverStartStep <;> rw [hs] at h
  · simpa [onServerResult, hs, stepCommands, startResults, stopNotifications] using h
  · simpa [onServerResult, hs, stepCommands, startResults, stopNotifications] using h
  · simpa [onServerResult, hs, stepCommands, startResults, stopNotifications] using h
  · simpa [onServerResult, hs, stepCommands, startResults, stopNotifications] using h
  · obtain ⟨hc, hr, hn⟩ := h
    subst hr hn
    cases res <;> cases hf : s.m_tunnelForward <;>
      simp [onServerResult, hs, hf, bootstrapPhase, disableTunnelReverse, disableTunnelForward,
        stepCommands, startResults, stopNotifications, hc]
  · obtain ⟨hc, hr, hn⟩ := h
    subst hr hn
    simp [onServerResult, hs, bootstrapPhase, stepCommands, startResults, stopNotifications, hc]

theorem bootstrapPhase_event (e : ProcessEvent) (s : Server) (c : List StepCommand)
    (r : List Bool) (n : Nat) (h : bootstrapPhase s.m_serverStartStep c r n) :
    bootstrapPhase (onWorkProcessResult e.env e.sender e.result s).1.m_serverStartStep
      (c ++ stepCommands (onWorkProcessResult e.env e.sender e.result s).2)
      (r ++ startResults (onWorkProcessResult e.env e.sender e.result s).2)
      (n + stopNotifications (onWorkProcessResult e.env e.sender e.result s).2) := by
  obtain ⟨env, sender, result⟩ := e
  cases sender
  · simpa only [onWorkProcessResult_work] using bootstrapPhase_work env result s c r n h
  · simpa only [onWorkProcessResult_server] using bootstrapPhase_server result s c r n h

theorem bootstrapPhase_runEvents (es : List ProcessEvent) (s : Server) (c : List StepCommand)
    (r : List Bool) (n : Nat) (h : bootstrapPhase s.m_serverStartStep c r n) :
    bootstrapPhase (runEvents s es).1.m_serverStartStep
      (c ++ stepCommands (runEvents s es).2)
      (r ++ startResults (runEvents s es).2)
      (n + stopNotifications (runEvents s es).2) := by
  induction es generalizing s c r n with
  | nil => simpa [runEvents, stepCommands, startResults, stopNotifications] using h
  | cons e es ih =>
    have h1 := ih _ _ _ _ (bootstrapPhase_event e s c r n h)
    simpa [runEvents, stepCommands_append, startResults_append, stopNotifications_append,
      List.append_assoc, Nat.add_assoc] using h1

theorem bootstrapPhase_startThenRun (env : Env) (params : ServerParams) (s : Server)
    (es : List ProcessEvent) :
    bootstrapPhase (startThenRun env params s es).1.m_serverStartStep
      (stepCommands (startThenRun env params s es).2)
      (startResults (startThenRun env params s es).2)
      (stopNotifications (startThenRun env params s es).2) := by
  have ho := (startServerByStep_observed env
    { s with m_params := params, m_serverStartStep := SSS_PUSH }).1 rfl
  have h0 : bootstrapPhase (start env params s).2.1.m_serverStartStep
      (stepCommands (start env params s).2.2) (startResults (start env params s).2.2)
      (stopNotifications (start env params s).2.2) := by
    simp [start, ho, bootstrapPhase]
  simpa [startThenRun, stepCommands_append, startResults_append, stopNotifications_append]
    using bootstrapPhase_runEvents es _ _ _ _ h0

/-- C3 as stated fails: after `start()`, a successful push and a successful
reverse-enable, an ExecFailed outcome of the launch command leaves the machine
waiting in ExecuteServer with no start result. -/
theorem launch_exec_failed_leaves_start_waiting :
    (startThenRun quietEnv sampleParams (idleServer SSS_NULL false)
      [workEvent quietEnv AER_SUCCESS_EXEC, workEvent quietEnv AER_SUCCESS_EXEC,
       serverEvent quietEnv AER_ERROR_EXEC]).1.m_serverStartStep = SSS_EXECUTE_SERVER ∧
    startResults (startThenRun quietEnv sampleParams (idleServer SSS_NULL false)
      [workEvent quietEnv AER_SUCCESS_EXEC, workEvent quietEnv AER_SUCCESS_EXEC,
       serverEvent quietEnv AER_ERROR_EXEC]).2 = [] := by
  decide

/-- C3, amended: for all parameters, every earlier state of the instance and
every sequence of outcomes of the two runners after `start()`:
while the machine is in Push, EnableTunnelReverse, EnableTunnelForward or
ExecuteServer no start result has been reported; in Running exactly one result
has been reported, a success; in Null either exactly one result has been
reported, a failure, or exactly one success followed by one "server stopped"
notification. The bootstrap commands issued are push, reverse-enable, launch, or
push, reverse-enable, forward-enable, launch, or a prefix of one of these.
An outcome other than StartSucceeded of the command of Push, EnableTunnelReverse
or EnableTunnelForward moves the machine to a later step, and StartSucceeded or
StartFailed of the launch command moves it from ExecuteServer to Running or
Null. -/
theorem start_ends_running_or_null (env : Env) (params : ServerParams) (s : Server)
    (es : List ProcessEvent) :
    ((startThenRun env params s es).1.m_serverStartStep ∈
        [SSS_PUSH, SSS_ENABLE_TUNNEL_REVERSE, SSS_ENABLE_TUNNEL_FORWARD, SSS_EXECUTE_SERVER] →
      startResults (startThenRun env params s es).2 = []) ∧
    ((startThenRun env params s es).1.m_serverStartStep = SSS_RUNNING →
      startResults (startThenRun env params s es).2 = [true] ∧
      stopNotifications (startThenRun env params s es).2 = 0) ∧
    ((startThenRun env params s es).1.m_serverStartStep = SSS_NULL →
      (startResults (startThenRun env params s es).2 = [false] ∧
        stopNotifications (startThenRun env params s es).2 = 0) ∨
      (startResults (startThenRun env params s es).2 = [true] ∧
        stopNotifications (startThenRun env params s es).2 = 1)) ∧
    (stepCommands (startThenRun env params s es).2 <+:
        [StepCommand.push, StepCommand.reverseEnable, StepCommand.launch] ∨
      stepCommands (startThenRun env params s es).2 <+:
        [StepCommand.push, StepCommand.reverseEnable, StepCommand.forwardEnable,
          StepCommand.launch]) ∧
    (∀ (env1 : Env) (s1 : Server) (r : ADB_EXEC_RESULT),
      s1.m_serverStartStep ∈
        [SSS_PUSH, SSS_ENABLE_TUNNEL_REVERSE, SSS_ENABLE_TUNNEL_FORWARD] →
      r ≠ AER_SUCCESS_START →
      stepRank s1.m_serverStartStep <
        stepRank (onWorkProcessResult env1 Sender.workProcess r s1).1.m_serverStartStep) ∧
    (∀ (env1 : Env) (s1 : Server) (r : ADB_EXEC_RESULT),
      s1.m_serverStartStep = SSS_EXECUTE_SERVER →
      r = AER_SUCCESS_START ∨ r = AER_ERROR_START →
      (onWorkProcessResult env1 Sender.serverProcess r s1).1.m_serverStartStep = SSS_RUNNING ∨
      (onWorkProcessResult env1 Sender.serverProcess r s1).1.m_serverStartStep = SSS_NULL) := by
  have hp := bootstrapPhase_startThenRun env params s es
  refine ⟨?_, ?_, ?_, ?_, ?_, ?_⟩
  · intro hmem
    cases hs : (startThenRun env params s es).1.m_serverStartStep <;> rw [hs] at hp hmem <;>
      simp [bootstrapPhase] at hp hmem <;> simp [hp]
  · intro hs
    rw [hs] at hp
    exact ⟨hp.2.1, hp.2.2⟩
  · intro hs
    rw [hs] at hp
    rcases hp with ⟨_, h1, h2⟩ | ⟨_, h1, h2⟩
    · exact Or.inl ⟨h1, h2⟩
    · exact Or.inr ⟨h1, h2⟩
  · cases hs : (startThenRun env params s es).1.m_serverStartStep <;> rw [hs] at hp <;>
      simp only [bootstrapPhase] at hp
    · rcases hp with ⟨hc | hc | hc | hc | hc, _, _⟩ | ⟨hc | hc, _, _⟩ <;> rw [hc] <;> decide
    · rw [hp.1]; decide
    · rw [hp.1]; decide
    · rw [hp.1]; decide
    · rcases hp with ⟨hc | hc, _, _⟩ <;> rw [hc] <;> decide
    · rcases hp with ⟨hc | hc, _, _⟩ <;> rw [hc] <;> decide
  · intro env1 s1 r hmem hr
    rw [onWorkProcessResult_work]
    have h2 := (startServerByStep_observed env1
      { s1 with m_serverStartStep := SSS_ENABLE_TUNNEL_REVERSE }).2.1 rfl
    have h3 := (startServerByStep_observed env1
      { s1 with m_tunnelForward := true,
                m_serverStartStep := SSS_ENABLE_TUNNEL_FORWARD }).2.2.1 rfl
    have h4 := (startServerByStep_observed env1
      { s1 with m_serverStartStep := SSS_EXECUTE_SERVER }).2.2.2 rfl
    cases hs : s1.m_serverStartStep <;> rw [hs] at hmem <;> simp at hmem
    · cases r <;> simp [onWorkResult, hs, stepRank, h2] at hr ⊢
    · cases r
      · simp at hr
      · simp [onWorkResult, hs, stepRank, h3]
      · rcases h4 with ⟨_, ⟨h, _, _⟩ | ⟨_, h, _, _⟩⟩ <;> simp [onWorkResult, hs, stepRank, h]
      · simp [onWorkResult, hs, stepRank, h3]
    · cases r
      · simp at hr
      · simp [onWorkResult, hs, stepRank]
      · rcases h4 with ⟨_, ⟨h, _, _⟩ | ⟨_, h, _, _⟩⟩ <;> simp [onWorkResult, hs, stepRank, h]
      · simp [onWorkResult, hs, stepRank]
  · intro env1 s1 r hs hr
    rw [onWorkProcessResult_server]
    rcases hr with hr | hr <;> subst hr <;> simp [onServerResult, hs]

/-- C3, amended, at a run that falls back to forward mode and reaches Running:
push succeeds, reverse-enable fails, forward-enable succeeds, the launch
command reports StartSucceeded. -/
theorem start_ends_running_or_null_witness :
    (startThenRun quietEnv sampleParams (idleServer SSS_NULL false)
      [workEvent quietEnv AER_SUCCESS_EXEC, workEvent quietEnv AER_ERROR_EXEC,
       workEvent quietEnv AER_SUCCESS_EXEC,
       serverEvent quietEnv AER_SUCCESS_START]).1.m_serverStartStep = SSS_RUNNING ∧
    startResults (startThenRun quietEnv sampleParams (idleServer SSS_NULL false)
      [workEvent quietEnv AER_SUCCESS_EXEC, workEvent quietEnv AER_ERROR_EXEC,
       workEvent quietEnv AER_SUCCESS_EXEC,
       serverEvent quietEnv AER_SUCCESS_START]).2 = [true] ∧
    stepRank (idleServer SSS_ENABLE_TUNNEL_REVERSE false).m_serverStartStep <
      stepRank (onWorkProcessResult quietEnv Sender.workProcess AER_ERROR_EXEC
        (idleServer SSS_ENABLE_TUNNEL_REVERSE false)).1.m_serverStartStep ∧
    ((onWorkProcessResult quietEnv Sender.serverProcess AER_ERROR_START
        (idleServer SSS_EXECUTE_SERVER true)).1.m_serverStartStep = SSS_RUNNING ∨
      (onWorkProcessResult quietEnv Sender.serverProcess AER_ERROR_START
        (idleServer SSS_EXECUTE_SERVER true)).1.m_serverStartStep = SSS_NULL) :=
  have h := start_ends_running_or_null quietEnv sampleParams (idleServer SSS_NULL false)
    [workEvent quietEnv AER_SUCCESS_EXEC, workEvent quietEnv AER_ERROR_EXEC,
     workEvent quietEnv AER_SUCCESS_EXEC, serverEvent quietEnv AER_SUCCESS_START]
  ⟨by decide, (h.2.1 (by decide)).1,
    h.2.2.2.2.1 quietEnv (idleServer SSS_ENABLE_TUNNEL_REVERSE false) AER_ERROR_EXEC
      (by decide) (by decide),
    h.2.2.2.2.2 quietEnv (idleServer SSS_EXECUTE_SERVER true) AER_ERROR_START rfl
      (Or.inr rfl)⟩

/-! ## Sessions that follow one another, and stopping during the bootstrap -/

/-- C5, the code at the failing input: a first `start()` whose reverse-enable
and forward-enable both fail ends in Null with the tunnel mode still Forward,
and a `stop()` there leaves the mode as it is; in the `start()` that follows, push and reverse-enable both succeed, and yet
the listener is not bound and the launch command carries the tunnel-forward
argument "true". -/
theorem second_start_keeps_forward_mode :
    (startThenRun quietEnv sampleParams (idleServer SSS_NULL false)
      [workEvent quietEnv AER_SUCCESS_EXEC, workEvent quietEnv AER_ERROR_EXEC,
       workEvent quietEnv AER_ERROR_EXEC]).1 = idleServer SSS_NULL true ∧
    stop (idleServer SSS_NULL true) = (idleServer SSS_NULL true, [Action.serverKill]) ∧
    startThenRun quietEnv sampleParams (idleServer SSS_NULL true)
      [workEvent quietEnv AER_SUCCESS_EXEC, workEvent quietEnv AER_SUCCESS_EXEC] =
      (idleServer SSS_EXECUTE_SERVER true,
        [Action.push "P7C0218510000537" "/data/local/tmp/scrcpy-server.jar",
         Action.reverse "P7C0218510000537" "qtscrcpy" 27183,
         Action.execute "P7C0218510000537"
           ["shell", "CLASSPATH=/data/local/tmp/scrcpy-server.jar", "app_process", "/",
            "com.genymobile.scrcpy.Server", "720", "8000000", "true", "-", "true", "true"]]) := by
  decide

/-- C9, the code at the failing inputs. First: after `start()`, a successful
push and a successful reverse-enable the machine is in ExecuteServer with the
reverse tunnel set up, and `stop()` only kills the launch command and closes
the listener: no tunnel-disable command is issued and the step stays
ExecuteServer. Second: `stop()` called while the push is in flight leaves the
step at Push, and the outcomes of push and reverse-enable that arrive afterwards
bind the listener and issue the launch command. -/
theorem stop_during_bootstrap_keeps_tunnel_and_launches :
    (startThenRun quietEnv sampleParams (idleServer SSS_NULL false)
      [workEvent quietEnv AER_SUCCESS_EXEC, workEvent quietEnv AER_SUCCESS_EXEC]).1 =
      { idleServer SSS_EXECUTE_SERVER false with m_serverSocketListening := true } ∧
    stop { idleServer SSS_EXECUTE_SERVER false with m_serverSocketListening := true } =
      (idleServer SSS_EXECUTE_SERVER false, [Action.serverKill]) ∧
    (start quietEnv sampleParams (idleServer SSS_NULL false)).2.1 = idleServer SSS_PUSH false ∧
    stop (idleServer SSS_PUSH false) = (idleServer SSS_PUSH false, [Action.serverKill]) ∧
    runEvents (idleServer SSS_PUSH false)
      [workEvent quietEnv AER_SUCCESS_EXEC, workEvent quietEnv AER_SUCCESS_EXEC] =
      ({ idleServer SSS_EXECUTE_SERVER false with m_serverSocketListening := true },
        [Action.reverse "P7C0218510000537" "qtscrcpy" 27183,
         Action.setMaxPendingConnections 2, Action.listen 27183,
         Action.execute "P7C0218510000537"
           ["shell", "CLASSPATH=/data/local/tmp/scrcpy-server.jar", "app_process", "/",
            "com.genymobile.scrcpy.Server", "720", "8000000", "false", "-", "true", "true"]]) := by
  decide

/-! ## The launch command -/

/-- C12: for all parameters and both tunnel modes, `execute` issues one launch
command and its argument list is exactly the 11 items "shell", the class path
of the server jar, "app_process", "/", the entry class, maxSize and bitRate in
decimal, the tunnel-forward flag, the crop, the send-frame-meta flag and the
control flag; a flag is "true" or "false", and the crop argument is "-" when
the crop is empty and the crop string itself otherwise. -/
theorem launch_arguments (env : Env) (s : Server) :
    launchArgs (execute env s).2.2 =
      [[ "shell", "CLASSPATH=/data/local/tmp/scrcpy-server.jar", "app_process", "/",
         "com.genymobile.scrcpy.Server",
         Nat.repr s.m_params.maxSize,
         Nat.repr s.m_params.bitRate,
         if s.m_tunnelForward = true then "true" else "false",
         if s.m_params.crop = "" then "-" else s.m_params.crop,
         if s.m_params.sendFrameMeta = true then "true" else "false",
         if s.m_params.control = true then "true" else "false" ]] ∧
    (launchArgs (execute env s).2.2).map List.length = [11] := by
  have hcp : "CLASSPATH=" ++ DEVICE_SERVER_PATH =
      "CLASSPATH=/data/local/tmp/scrcpy-server.jar" := by decide
  have hcrop : (if s.m_params.crop.isEmpty = true then "-" else s.m_params.crop) =
      (if s.m_params.crop = "" then "-" else s.m_params.crop) := by
    simp only [String.isEmpty_iff]
  have hargs : launchArgs (execute env s).2.2 = [executeArgs s] := by
    cases h : env.serverRuning <;> simp [execute, launchArgs, h]
  rw [hargs]
  constructor
  · simp only [executeArgs, boolArg, hcp, hcrop]
    rfl
  · simp [executeArgs]

/-! ## connectTo -/

/-- C19: in every state other than Running, `connectTo()` returns false,
leaves every member as it is (state, tunnel mode, tunnel mark, sockets, guard)
and does nothing: no guard, no scheduled connection attempt, no result. -/
theorem connectTo_refused_unless_running (timerId : Nat) (s : Server)
    (hstep : s.m_serverStartStep ≠ SSS_RUNNING) :
    connectTo timerId s = (false, s, []) := by
  simp [connectTo, hstep]

/-- C19, at an instance that waits in ExecuteServer with the listener bound. -/
theorem connectTo_refused_unless_running_witness :
    connectTo 7 { idleServer SSS_EXECUTE_SERVER false with m_serverSocketListening := true } =
      (false, { idleServer SSS_EXECUTE_SERVER false with m_serverSocketListening := true }, []) :=
  connectTo_refused_unless_running 7
    { idleServer SSS_EXECUTE_SERVER false with m_serverSocketListening := true } (by decide)

/-- C18 as stated fails: a running instance in reverse mode that already holds
a video socket (here: accepted, header read, control socket still awaited)
answers `connectTo()` by scheduling the delayed handshake instead of starting
the guard, and that handshake opens an outbound connection to the local port. -/
theorem connectTo_reverse_with_video_socket_connects_out :
    connectTo 7 { runningReverse with m_videoSocket := some openSocket } =
      (true, { runningReverse with m_videoSocket := some openSocket },
        [Action.singleShot 1000]) ∧
    (connectTo 7
      { runningReverse with m_videoSocket := some openSocket }).2.1.m_acceptTimeoutTimer = 0 ∧
    outboundConnects (connectToDelayed (goodHandshake pixelHeader)
      { runningReverse with m_videoSocket := some openSocket }).2 =
      [Action.videoConnectToHost 27183, Action.controlConnectToHost 27183] := by
  decide

/-- C18, amended: in reverse mode, a `connectTo()` call made in Running while
the instance holds no video socket returns true, starts the 1000 ms guard
(after killing a guard that was still armed) and does nothing else: it
schedules no handshake and opens no outbound connection; the listener, the
sockets and the tunnel are left as they are. -/
theorem connectTo_reverse_starts_guard (timerId : Nat) (s : Server)
    (hstep : s.m_serverStartStep = SSS_RUNNING) (hmode : s.m_tunnelForward = false)
    (hvideo : s.m_videoSocket = none) :
    connectTo timerId s =
      (true, { s with m_acceptTimeoutTimer := timerId },
        (if s.m_acceptTimeoutTimer ≠ 0 then [Action.killTimer s.m_acceptTimeoutTimer] else []) ++
          [Action.startTimer 1000]) ∧
    outboundConnects (connectTo timerId s).2.2 = [] := by
  have h : connectTo timerId s =
      (true, { s with m_acceptTimeoutTimer := timerId },
        (if s.m_acceptTimeoutTimer ≠ 0 then [Action.killTimer s.m_acceptTimeoutTimer] else []) ++
          [Action.startTimer 1000]) := by
    by_cases ht : s.m_acceptTimeoutTimer = 0 <;>
      simp [connectTo, hstep, hmode, hvideo, startAcceptTimeoutTimer, stopAcceptTimeoutTimer, ht]
  rw [h]
  by_cases ht : s.m_acceptTimeoutTimer = 0 <;> simp [outboundConnects, ht]

/-- C18, amended, at a running reverse-mode instance without sockets. -/
theorem connectTo_reverse_starts_guard_witness :
    connectTo 7 runningReverse =
      (true, { runningReverse with m_acceptTimeoutTimer := 7 }, [Action.startTimer 1000]) :=
  (connectTo_reverse_starts_guard 7 runningReverse rfl rfl rfl).1

/-! ## The accept-timeout guard -/

/-- C15: in reverse mode, when `connectTo()` is called in Running with no
video socket and the guard gets the timer id `timerId`, the call reports no
result; the timer event of the guard then kills the timer, clears the guard
and reports exactly one result, a failure with empty name and null size, and
changes nothing else; a further event with that id does nothing. -/
theorem accept_timeout_reports_one_failure (timerId : Nat) (s : Server)
    (hstep : s.m_serverStartStep = SSS_RUNNING) (hmode : s.m_tunnelForward = false)
    (hvideo : s.m_videoSocket = none) (hid : timerId ≠ 0) :
    (connectTo timerId s).1 = true ∧
    connectResults (connectTo timerId s).2.2 = [] ∧
    timerEvent (some timerId) (connectTo timerId s).2.1 =
      ({ s with m_acceptTimeoutTimer := 0 },
        [Action.killTimer timerId, Action.connectToResult false [] QSize.null]) ∧
    connectResults (timerEvent (some timerId) (connectTo timerId s).2.1).2 =
      [(false, [], QSize.null)] ∧
    timerEvent (some timerId) (timerEvent (some timerId) (connectTo timerId s).2.1).1 =
      ({ s with m_acceptTimeoutTimer := 0 }, []) := by
  have h : connectTo timerId s =
      (true, { s with m_acceptTimeoutTimer := timerId },
        (if s.m_acceptTimeoutTimer ≠ 0 then [Action.killTimer s.m_acceptTimeoutTimer] else []) ++
          [Action.startTimer 1000]) := by
    by_cases ht : s.m_acceptTimeoutTimer = 0 <;>
      simp [connectTo, hstep, hmode, hvideo, startAcceptTimeoutTimer, stopAcceptTimeoutTimer, ht]
  have h2 : timerEvent (some timerId) { s with m_acceptTimeoutTimer := timerId } =
      ({ s with m_acceptTimeoutTimer := 0 },
        [Action.killTimer timerId, Action.connectToResult false [] QSize.null]) := by
    simp [timerEvent, stopAcceptTimeoutTimer, hid]
  rw [h]
  refine ⟨rfl, ?_, h2, ?_, ?_⟩
  · by_cases ht : s.m_acceptTimeoutTimer = 0 <;> simp [connectResults, ht]
  · simp only [h2]
    simp [connectResults]
  · simp only [h2]
    simp [timerEvent, Ne.symm hid]

/-- C15, at a running reverse-mode instance whose guard gets the timer id 7. -/
theorem accept_timeout_reports_one_failure_witness :
    timerEvent (some 7) (connectTo 7 runningReverse).2.1 =
      (runningReverse, [Action.killTimer 7, Action.connectToResult false [] QSize.null]) ∧
    timerEvent (some 7) (timerEvent (some 7) (connectTo 7 runningReverse).2.1).1 =
      (runningReverse, []) :=
  have h := accept_timeout_reports_one_failure 7 runningReverse rfl rfl rfl (by decide)
  ⟨h.2.2.1, h.2.2.2.2⟩

/-! ## The handshake in reverse mode -/

theorem readInfo_ok_iff (sock : VideoSocket) (deviceName : List Byte) (size : QSize) :
    (readInfo sock deviceName size).1 = true ↔ (readInfoRead sock).1.length = 68 := by
  have hle := readInfoRead_length_le sock
  by_cases h : (readInfoRead sock).1.length < 68
  · simp [readInfo, DEVICE_NAME_FIELD_LENGTH, h]
    omega
  · simp [readInfo, DEVICE_NAME_FIELD_LENGTH, h]
    omega

theorem readInfo_failed_keeps (sock : VideoSocket) (deviceName : List Byte) (size : QSize)
    (h : (readInfo sock deviceName size).1 = false) :
    (readInfo sock deviceName size).2.1 = deviceName ∧
    (readInfo sock deviceName size).2.2.1 = size := by
  by_cases hlt : (readInfoRead sock).1.length < 68
  · simp [readInfo, DEVICE_NAME_FIELD_LENGTH, hlt]
  · simp [readInfo, DEVICE_NAME_FIELD_LENGTH, hlt] at h

theorem stop_observed (s : Server) :
    (stop s).1.m_videoSocket = s.m_videoSocket.map TcpSocket.closeAndDelete ∧
    (stop s).1.m_controlSocket = s.m_controlSocket.map TcpSocket.closeAndDelete ∧
    (stop s).1.m_serverSocketListening = false ∧
    (stop s).1.m_tunnelEnabled = false ∧
    (stop s).1.m_acceptTimeoutTimer = s.m_acceptTimeoutTimer ∧
    (stop s).1.m_serverStartStep = s.m_serverStartStep ∧
    connectResults (stop s).2 = [] ∧
    disableCommands (stop s).2 =
      (if s.m_tunnelEnabled = true then
        [if s.m_tunnelForward = true
          then Action.forwardRemove s.m_params.serial s.m_params.localPort
          else Action.reverseRemove s.m_params.serial SOCKET_NAME]
       else []) := by
  cases he : s.m_tunnelEnabled <;> cases hf : s.m_tunnelForward <;>
    simp [stop, he, hf, disableTunnelForward, disableTunnelReverse, connectResults,
      disableCommands]

theorem socketClosed_closeAndDelete (o : Option TcpSocket) :
    socketClosed (o.map TcpSocket.closeAndDelete) = true := by
  cases o <;> simp [socketClosed, TcpSocket.closeAndDelete]

theorem connectResults_append (a b : List Action) :
    connectResults (a ++ b) = connectResults a ++ connectResults b := by
  simp [connectResults]

theorem disableCommands_append (a b : List Action) :
    disableCommands (a ++ b) = disableCommands a ++ disableCommands b := by
  simp [disableCommands]

theorem abort_observed (s0 : Server) (r : Server × List Action)
    (hr : r = ((stop s0).1, (stop s0).2 ++ [Action.connectToResult false [] QSize.null])) :
    connectResults r.2 = [(false, [], QSize.null)] ∧
    r.1.m_videoSocket = s0.m_videoSocket.map TcpSocket.closeAndDelete ∧
    r.1.m_controlSocket = s0.m_controlSocket.map TcpSocket.closeAndDelete ∧
    r.1.m_serverSocketListening = false ∧
    r.1.m_tunnelEnabled = false ∧
    disableCommands r.2 =
      (if s0.m_tunnelEnabled = true then
        [if s0.m_tunnelForward = true
          then Action.forwardRemove s0.m_params.serial s0.m_params.localPort
          else Action.reverseRemove s0.m_params.serial SOCKET_NAME]
       else []) := by
  obtain ⟨h1, h2, h3, h4, _, _, h7, h8⟩ := stop_observed s0
  subst hr
  simp only [connectResults_append, disableCommands_append, h1, h2, h3, h4, h7, h8]
  simp [connectResults, disableCommands]

/-- C13: when a valid video connection whose header read delivers 68 bytes is
accepted and then a valid control connection, the first handler reports
nothing and stores the parsed name and size; the second closes the listener,
issues the reverse-tunnel disable command exactly once, marks the tunnel
disabled, kills the accept-timeout guard if it is armed and clears it, and
reports exactly one result: a success with the name and size that `readInfo`
parsed from the video connection. -/
theorem reverse_handshake_completes (s : Server) (v : VideoSocket) (c : TcpSocket)
    (hv : v.isOpen = true) (hheader : (readInfoRead v).1.length = 68)
    (hc : c.isOpen = true) :
    (onNewConnection (Pending.video v) s).2 = [] ∧
    onNewConnection (Pending.plain c) (onNewConnection (Pending.video v) s).1 =
      ({ s with
          m_serverSocketListening := false,
          m_videoSocket := some (readInfo v s.m_deviceName s.m_deviceSize).2.2.2,
          m_controlSocket := some c,
          m_tunnelEnabled := false,
          m_acceptTimeoutTimer := 0,
          m_deviceName := (readInfo v s.m_deviceName s.m_deviceSize).2.1,
          m_deviceSize := (readInfo v s.m_deviceName s.m_deviceSize).2.2.1 },
        [Action.reverseRemove s.m_params.serial SOCKET_NAME,
         Action.connectToResult true (readInfo v s.m_deviceName s.m_deviceSize).2.1
           (readInfo v s.m_deviceName s.m_deviceSize).2.2.1] ++
        (if s.m_acceptTimeoutTimer ≠ 0 then [Action.killTimer s.m_acceptTimeoutTimer] else [])) ∧
    disableCommands (onNewConnection (Pending.plain c)
      (onNewConnection (Pending.video v) s).1).2 =
      [Action.reverseRemove s.m_params.serial SOCKET_NAME] ∧
    connectResults (onNewConnection (Pending.plain c)
      (onNewConnection (Pending.video v) s).1).2 =
      [(true, (readInfo v s.m_deviceName s.m_deviceSize).2.1,
        (readInfo v s.m_deviceName s.m_deviceSize).2.2.1)] := by
  have hok := (readInfo_ok_iff v s.m_deviceName s.m_deviceSize).2 hheader
  have h1 : onNewConnection (Pending.video v) s =
      ({ s with
          m_videoSocket := some (readInfo v s.m_deviceName s.m_deviceSize).2.2.2,
          m_deviceName := (readInfo v s.m_deviceName s.m_deviceSize).2.1,
          m_deviceSize := (readInfo v s.m_deviceName s.m_deviceSize).2.2.1 }, []) := by
    simp [onNewConnection, TcpSocket.isValid, hv, hok]
  have h2 : onNewConnection (Pending.plain c)
      { s with
          m_videoSocket := some (readInfo v s.m_deviceName s.m_deviceSize).2.2.2,
          m_deviceName := (readInfo v s.m_deviceName s.m_deviceSize).2.1,
          m_deviceSize := (readInfo v s.m_deviceName s.m_deviceSize).2.2.1 } =
      ({ s with
          m_serverSocketListening := false,
          m_videoSocket := some (readInfo v s.m_deviceName s.m_deviceSize).2.2.2,
          m_controlSocket := some c,
          m_tunnelEnabled := false,
          m_acceptTimeoutTimer := 0,
          m_deviceName := (readInfo v s.m_deviceName s.m_deviceSize).2.1,
          m_deviceSize := (readInfo v s.m_deviceName s.m_deviceSize).2.2.1 },
        [Action.reverseRemove s.m_params.serial SOCKET_NAME,
         Action.connectToResult true (readInfo v s.m_deviceName s.m_deviceSize).2.1
           (readInfo v s.m_deviceName s.m_deviceSize).2.2.1] ++
        (if s.m_acceptTimeoutTimer ≠ 0 then [Action.killTimer s.m_acceptTimeoutTimer]
         else [])) := by
    by_cases ht : s.m_acceptTimeoutTimer = 0 <;>
      simp [onNewConnection, TcpSocket.isValid, hc, disableTunnelReverse,
        stopAcceptTimeoutTimer, ht]
  rw [h1]
  refine ⟨rfl, h2, ?_, ?_⟩
  · rw [h2]
    by_cases ht : s.m_acceptTimeoutTimer = 0 <;> simp [disableCommands, ht]
  · rw [h2]
    by_cases ht : s.m_acceptTimeoutTimer = 0 <;> simp [connectResults, ht]

/-- C13, at a running reverse-mode instance with the guard armed: the "pixel"
header on the video connection, then an open control connection. -/
theorem reverse_handshake_completes_witness :
    onNewConnection (Pending.plain openSocket)
      (onNewConnection (Pending.video (socketHolding pixelHeader))
        { runningReverse with m_acceptTimeoutTimer := 7 }).1 =
      ({ idleServer SSS_RUNNING false with
          m_videoSocket := some (socketHolding []),
          m_controlSocket := some openSocket,
          m_deviceName := asciiBytes "pixel",
          m_deviceSize := { width := 1080, height := 2280 } },
        [Action.reverseRemove "P7C0218510000537" "qtscrcpy",
         Action.connectToResult true (asciiBytes "pixel") { width := 1080, height := 2280 },
         Action.killTimer 7]) :=
  (reverse_handshake_completes { runningReverse with m_acceptTimeoutTimer := 7 }
    (socketHolding pixelHeader) openSocket rfl (by decide) rfl).2.1.trans (by decide)

/-- C14: in reverse mode, when the accepted video connection is not valid or
its header read delivers fewer than 68 bytes, the handler reports exactly one
result, a failure; afterwards the video socket and the control socket the
instance held are closed, the listener is closed and the tunnel is marked
disabled, the reverse-tunnel disable command being issued exactly when the
tunnel was marked enabled. -/
theorem reverse_video_failure_aborts (s : Server) (v : VideoSocket)
    (hmode : s.m_tunnelForward = false)
    (hbad : v.isOpen = false ∨ (readInfoRead v).1.length < 68) :
    connectResults (onNewConnection (Pending.video v) s).2 = [(false, [], QSize.null)] ∧
    (onNewConnection (Pending.video v) s).1.m_videoSocket ≠ none ∧
    socketClosed (onNewConnection (Pending.video v) s).1.m_videoSocket = true ∧
    (onNewConnection (Pending.video v) s).1.m_controlSocket =
      s.m_controlSocket.map TcpSocket.closeAndDelete ∧
    socketClosed (onNewConnection (Pending.video v) s).1.m_controlSocket = true ∧
    (onNewConnection (Pending.video v) s).1.m_serverSocketListening = false ∧
    (onNewConnection (Pending.video v) s).1.m_tunnelEnabled = false ∧
    disableCommands (onNewConnection (Pending.video v) s).2 =
      (if s.m_tunnelEnabled = true then [Action.reverseRemove s.m_params.serial SOCKET_NAME]
       else []) := by
  have hfail : v.isOpen = true → (readInfo v s.m_deviceName s.m_deviceSize).1 = false := by
    intro ho
    rcases hbad with hb | hb
    · simp [ho] at hb
    · cases hr : (readInfo v s.m_deviceName s.m_deviceSize).1
      · rfl
      · have := (readInfo_ok_iff v s.m_deviceName s.m_deviceSize).1 hr
        omega
  cases ho : v.isOpen
  · have h : onNewConnection (Pending.video v) s =
        ((stop { s with m_videoSocket := some v }).1,
          (stop { s with m_videoSocket := some v }).2 ++
            [Action.connectToResult false [] QSize.null]) := by
      simp [onNewConnection, TcpSocket.isValid, ho]
    obtain ⟨h1, h2, h3, h4, h5, h6⟩ := abort_observed _ _ h
    rw [h1, h2, h3, h4, h5, h6]
    simp [hmode, socketClosed_closeAndDelete]
    simp [socketClosed, TcpSocket.closeAndDelete]
  · have hf := hfail ho
    have h : onNewConnection (Pending.video v) s =
        ((stop { s with
            m_videoSocket := some (readInfo v s.m_deviceName s.m_deviceSize).2.2.2,
            m_deviceName := (readInfo v s.m_deviceName s.m_deviceSize).2.1,
            m_deviceSize := (readInfo v s.m_deviceName s.m_deviceSize).2.2.1 }).1,
          (stop { s with
            m_videoSocket := some (readInfo v s.m_deviceName s.m_deviceSize).2.2.2,
            m_deviceName := (readInfo v s.m_deviceName s.m_deviceSize).2.1,
            m_deviceSize := (readInfo v s.m_deviceName s.m_deviceSize).2.2.1 }).2 ++
            [Action.connectToResult false [] QSize.null]) := by
      simp [onNewConnection, TcpSocket.isValid, ho, hf]
    obtain ⟨h1, h2, h3, h4, h5, h6⟩ := abort_observed _ _ h
    rw [h1, h2, h3, h4, h5, h6]
    simp [hmode, socketClosed_closeAndDelete]
    simp [socketClosed, TcpSocket.closeAndDelete]

/-- C14, at a running reverse-mode instance that already holds an open control
socket, when the video connection delivers only 5 bytes. -/
theorem reverse_video_failure_aborts_witness :
    connectResults (onNewConnection (Pending.video (socketHolding (asciiBytes "pixel")))
      { runningReverse with m_controlSocket := some openSocket }).2 =
      [(false, [], QSize.null)] ∧
    socketClosed (onNewConnection (Pending.video (socketHolding (asciiBytes "pixel")))
      { runningReverse with m_controlSocket := some openSocket }).1.m_controlSocket = true ∧
    disableCommands (onNewConnection (Pending.video (socketHolding (asciiBytes "pixel")))
      { runningReverse with m_controlSocket := some openSocket }).2 =
      [Action.reverseRemove "P7C0218510000537" "qtscrcpy"] :=
  have h := reverse_video_failure_aborts
    { runningReverse with m_controlSocket := some openSocket }
    (socketHolding (asciiBytes "pixel")) rfl (Or.inr (by decide))
  ⟨h.1, h.2.2.2.2.1, h.2.2.2.2.2.2.2⟩

/-! ## The handshake in forward mode -/

theorem abort_after_observed (s0 : Server) (pre : List Action) (r : Server × List Action)
    (hpre : connectResults pre = [] ∧ disableCommands pre = [])
    (hr : r = ((stop s0).1,
      pre ++ (stop s0).2 ++ [Action.connectToResult false [] QSize.null])) :
    connectResults r.2 = [(false, [], QSize.null)] ∧
    r.1.m_videoSocket = s0.m_videoSocket.map TcpSocket.closeAndDelete ∧
    r.1.m_controlSocket = s0.m_controlSocket.map TcpSocket.closeAndDelete ∧
    r.1.m_serverSocketListening = false ∧
    r.1.m_tunnelEnabled = false ∧
    disableCommands r.2 =
      (if s0.m_tunnelEnabled = true then
        [if s0.m_tunnelForward = true
          then Action.forwardRemove s0.m_params.serial s0.m_params.localPort
          else Action.reverseRemove s0.m_params.serial SOCKET_NAME]
       else []) := by
  obtain ⟨h1, h2, h3, h4, _, _, h7, h8⟩ := stop_observed s0
  subst hr
  simp only [connectResults_append, disableCommands_append, h1, h2, h3, h4, h7, h8, hpre.1,
    hpre.2]
  simp [connectResults, disableCommands]

theorem handshakeReadVideo_ok_iff (h : HandshakeEnv) :
    (handshakeReadVideo h).1 = true ↔
      h.videoStateConnected = true ∧ (h.video.waitForReadyRead.read 1).1 ≠ [] ∧
      (readInfoRead (h.video.waitForReadyRead.read 1).2).1.length = 68 := by
  cases hs : h.videoStateConnected
  · simp [handshakeReadVideo, hs]
  · by_cases hd : (h.video.waitForReadyRead.read 1).1 = []
    · simp [handshakeReadVideo, hs, hd]
    · simp [handshakeReadVideo, hs, hd, readInfo_ok_iff]

theorem handshakeReadVideo_values (h : HandshakeEnv) :
    ((handshakeReadVideo h).1 = true →
      (handshakeReadVideo h).2.1 =
        (readInfo (h.video.waitForReadyRead.read 1).2 [] QSize.null).2.1 ∧
      (handshakeReadVideo h).2.2.1 =
        (readInfo (h.video.waitForReadyRead.read 1).2 [] QSize.null).2.2.1) ∧
    ((handshakeReadVideo h).1 = false →
      (handshakeReadVideo h).2.1 = [] ∧ (handshakeReadVideo h).2.2.1 = QSize.null) := by
  cases hs : h.videoStateConnected
  · simp [handshakeReadVideo, hs]
  · by_cases hd : (h.video.waitForReadyRead.read 1).1 = []
    · simp [handshakeReadVideo, hs, hd]
    · have he : (h.video.waitForReadyRead.read 1).1.isEmpty = false := by
        simpa [List.isEmpty_iff] using hd
      have hv : handshakeReadVideo h =
          readInfo (h.video.waitForReadyRead.read 1).2 [] QSize.null := by
        simp [handshakeReadVideo, hs, he]
      rw [hv]
      exact ⟨fun _ => ⟨rfl, rfl⟩, readInfo_failed_keeps _ _ _⟩

theorem connectToDelayed_aborts (h : HandshakeEnv) (s : Server)
    (hno : ¬ handshakeComplete h) :
    ∃ s0 pre, (connectResults pre = [] ∧ disableCommands pre = []) ∧
      s0.m_videoSocket ≠ none ∧
      s0.m_tunnelEnabled = s.m_tunnelEnabled ∧ s0.m_tunnelForward = s.m_tunnelForward ∧
      s0.m_params = s.m_params ∧
      (h.videoConnected = true → s0.m_controlSocket ≠ none) ∧
      connectToDelayed h s = ((stop s0).1,
        pre ++ (stop s0).2 ++ [Action.connectToResult false [] QSize.null]) := by
  cases hvc : h.videoConnected
  · refine ⟨{ s with m_videoSocket := some h.video },
      [Action.videoConnectToHost s.m_params.localPort], ?_, ?_, rfl, rfl, rfl, ?_, ?_⟩
    · simp [connectResults, disableCommands]
    · simp
    · simp
    · simp [connectToDelayed, hvc]
  · refine ⟨{ s with m_videoSocket := some (handshakeReadVideo h).2.2.2,
                      m_controlSocket := some h.control },
      [Action.videoConnectToHost s.m_params.localPort,
       Action.controlConnectToHost s.m_params.localPort], ?_, ?_, rfl, rfl, rfl, ?_, ?_⟩
    · simp [connectResults, disableCommands]
    · simp
    · simp
    · cases hcc : h.controlConnected
      · simp [connectToDelayed, hvc, hcc]
      · have hv : (handshakeReadVideo h).1 = false := by
          cases hr : (handshakeReadVideo h).1
          · rfl
          · exact absurd ⟨hvc, ((handshakeReadVideo_ok_iff h).1 hr).1,
              ((handshakeReadVideo_ok_iff h).1 hr).2.1,
              ((handshakeReadVideo_ok_iff h).1 hr).2.2, hcc⟩ hno
        have hvals := (handshakeReadVideo_values h).2 hv
        simp [connectToDelayed, hvc, hcc, hv, hvals.1, hvals.2]

theorem connectToDelayed_succeeds (h : HandshakeEnv) (s : Server)
    (hyes : handshakeComplete h) :
    connectToDelayed h s =
      ({ s with m_videoSocket := some (handshakeReadVideo h).2.2.2,
                m_controlSocket := some h.control, m_tunnelEnabled := false },
        [Action.videoConnectToHost s.m_params.localPort,
         Action.controlConnectToHost s.m_params.localPort,
         Action.forwardRemove s.m_params.serial s.m_params.localPort,
         Action.connectToResult true
           (readInfo (h.video.waitForReadyRead.read 1).2 [] QSize.null).2.1
           (readInfo (h.video.waitForReadyRead.read 1).2 [] QSize.null).2.2.1]) := by
  obtain ⟨hvc, hsc, hp, hlen, hcc⟩ := hyes
  have hv : (handshakeReadVideo h).1 = true := (handshakeReadVideo_ok_iff h).2 ⟨hsc, hp, hlen⟩
  have hvals := (handshakeReadVideo_values h).1 hv
  simp [connectToDelayed, hvc, hcc, hv, hvals.1, hvals.2, disableTunnelForward]

/-- C17: in forward mode the delayed handshake reports exactly one result. It
is a success exactly when the video socket connects, a priming byte is read,
the header read that follows delivers 68 bytes and the control socket
connects; the success carries the name and size `readInfo` parsed, comes with
exactly one forward-tunnel disable command and leaves the tunnel marked
disabled. In every other case the result is a failure, both socket pointers
refer to closed sockets, the tunnel is marked disabled, and the forward-tunnel
disable command has been issued exactly when the tunnel was marked enabled. -/
theorem forward_handshake_outcome (h : HandshakeEnv) (s : Server)
    (hmode : s.m_tunnelForward = true) :
    (connectResults (connectToDelayed h s).2).length = 1 ∧
    ((∃ name size, connectResults (connectToDelayed h s).2 = [(true, name, size)]) ↔
      handshakeComplete h) ∧
    (handshakeComplete h →
      connectResults (connectToDelayed h s).2 =
        [(true, (readInfo (h.video.waitForReadyRead.read 1).2 [] QSize.null).2.1,
          (readInfo (h.video.waitForReadyRead.read 1).2 [] QSize.null).2.2.1)] ∧
      disableCommands (connectToDelayed h s).2 =
        [Action.forwardRemove s.m_params.serial s.m_params.localPort] ∧
      (connectToDelayed h s).1.m_tunnelEnabled = false) ∧
    (¬ handshakeComplete h →
      connectResults (connectToDelayed h s).2 = [(false, [], QSize.null)] ∧
      (connectToDelayed h s).1.m_videoSocket ≠ none ∧
      socketClosed (connectToDelayed h s).1.m_videoSocket = true ∧
      socketClosed (connectToDelayed h s).1.m_controlSocket = true ∧
      (h.videoConnected = true → (connectToDelayed h s).1.m_controlSocket ≠ none) ∧
      (connectToDelayed h s).1.m_tunnelEnabled = false ∧
      disableCommands (connectToDelayed h s).2 =
        (if s.m_tunnelEnabled = true
          then [Action.forwardRemove s.m_params.serial s.m_params.localPort] else [])) := by
  have hyes : handshakeComplete h →
      connectResults (connectToDelayed h s).2 =
        [(true, (readInfo (h.video.waitForReadyRead.read 1).2 [] QSize.null).2.1,
          (readInfo (h.video.waitForReadyRead.read 1).2 [] QSize.null).2.2.1)] ∧
      disableCommands (connectToDelayed h s).2 =
        [Action.forwardRemove s.m_params.serial s.m_params.localPort] ∧
      (connectToDelayed h s).1.m_tunnelEnabled = false := by
    intro hc
    rw [connectToDelayed_succeeds h s hc]
    simp [connectResults, disableCommands]
  have hno : ¬ handshakeComplete h →
      connectResults (connectToDelayed h s).2 = [(false, [], QSize.null)] ∧
      (connectToDelayed h s).1.m_videoSocket ≠ none ∧
      socketClosed (connectToDelayed h s).1.m_videoSocket = true ∧
      socketClosed (connectToDelayed h s).1.m_controlSocket = true ∧
      (h.videoConnected = true → (connectToDelayed h s).1.m_controlSocket ≠ none) ∧
      (connectToDelayed h s).1.m_tunnelEnabled = false ∧
      disableCommands (connectToDelayed h s).2 =
        (if s.m_tunnelEnabled = true
          then [Action.forwardRemove s.m_params.serial s.m_params.localPort] else []) := by
    intro hc
    obtain ⟨s0, pre, hpre, hv0, he0, hf0, hp0, hc0, hrun⟩ := connectToDelayed_aborts h s hc
    obtain ⟨h1, h2, h3, _, h5, h6⟩ := abort_after_observed s0 pre _ hpre hrun
    rw [h1, h2, h3, h5, h6, he0, hf0, hp0, hmode]
    refine ⟨rfl, ?_, socketClosed_closeAndDelete _, socketClosed_closeAndDelete _, ?_, rfl, ?_⟩
    · cases hv : s0.m_videoSocket
      · exact absurd hv hv0
      · simp
    · intro hvc
      cases hcs : s0.m_controlSocket
      · exact absurd hcs (hc0 hvc)
      · simp
    · simp
  refine ⟨?_, ?_, hyes, hno⟩
  · by_cases hc : handshakeComplete h
    · rw [(hyes hc).1]; rfl
    · rw [(hno hc).1]; rfl
  · constructor
    · rintro ⟨name, size, hres⟩
      by_contra hc
      rw [(hno hc).1] at hres
      simp at hres
    · intro hc
      exact ⟨_, _, (hyes hc).1⟩

/-- C17, at a running forward-mode instance: both sockets connect and the video
socket delivers a priming byte and the "pixel" header. -/
theorem forward_handshake_outcome_witness :
    handshakeComplete (goodHandshake pixelHeader) ∧
    connectResults (connectToDelayed (goodHandshake pixelHeader) runningForward).2 =
      [(true, asciiBytes "pixel", { width := 1080, height := 2280 })] ∧
    disableCommands (connectToDelayed (goodHandshake pixelHeader) runningForward).2 =
      [Action.forwardRemove "P7C0218510000537" 27183] ∧
    connectResults (connectToDelayed
      { goodHandshake pixelHeader with controlConnected := false } runningForward).2 =
      [(false, [], QSize.null)] ∧
    disableCommands (connectToDelayed
      { goodHandshake pixelHeader with controlConnected := false } runningForward).2 =
      [Action.forwardRemove "P7C0218510000537" 27183] :=
  have hc : handshakeComplete (goodHandshake pixelHeader) := by
    refine ⟨rfl, rfl, ?_, ?_, rfl⟩ <;> decide
  have hn : ¬ handshakeComplete { goodHandshake pixelHeader with controlConnected := false } :=
    fun hx => absurd hx.2.2.2.2 (by decide)
  have h := forward_handshake_outcome (goodHandshake pixelHeader) runningForward rfl
  have h2 := forward_handshake_outcome
    { goodHandshake pixelHeader with controlConnected := false } runningForward rfl
  ⟨hc, (h.2.2.1 hc).1.trans (by decide), (h.2.2.1 hc).2.1, (h2.2.2.2 hn).1,
    (h2.2.2.2 hn).2.2.2.2.2.2⟩

/-! ## After the guard has fired -/

/-- C16, the code at the failing input: a running reverse-mode instance, then
`connectTo()`, a video connection with the "pixel" header, and the timer event
of the guard. The timer event reports the failure and clears the guard, but
the listener is still listening and the video socket is still held and open;
the control connection that arrives afterwards is accepted and a success is
reported after the failure. -/
theorem timeout_leaves_acceptance_open :
    run runningReverse
      [Input.connectTo 7, Input.newConnection (Pending.video (socketHolding pixelHeader)),
       Input.timer (some 7)] =
      ({ runningReverse with
          m_videoSocket := some (socketHolding []),
          m_deviceName := asciiBytes "pixel",
          m_deviceSize := { width := 1080, height := 2280 } },
        [Action.startTimer 1000, Action.killTimer 7,
         Action.connectToResult false [] QSize.null]) ∧
    connectResults (run runningReverse
      [Input.connectTo 7, Input.newConnection (Pending.video (socketHolding pixelHeader)),
       Input.timer (some 7), Input.newConnection (Pending.plain openSocket)]).2 =
      [(false, [], QSize.null),
       (true, asciiBytes "pixel", { width := 1080, height := 2280 })] := by
  decide

/-- C20, the code at the failing inputs, each after one `connectTo()` on a
running reverse-mode instance. First: the guard fires, then a video and a
control connection arrive at the listener, which is still listening: a failure
and then a success are reported. Second: the video connection delivers only 5
bytes, a failure is reported and the guard stays armed; its timer event
reports a second failure. -/
theorem connectTo_followed_by_two_results :
    (run runningReverse [Input.connectTo 7, Input.timer (some 7)]).1 = runningReverse ∧
    connectResults (run runningReverse
      [Input.connectTo 7, Input.timer (some 7),
       Input.newConnection (Pending.video (socketHolding pixelHeader)),
       Input.newConnection (Pending.plain openSocket)]).2 =
      [(false, [], QSize.null),
       (true, asciiBytes "pixel", { width := 1080, height := 2280 })] ∧
    (run runningReverse
      [Input.connectTo 7,
       Input.newConnection (Pending.video (socketHolding (asciiBytes "pixel")))]).1.m_acceptTimeoutTimer
      = 7 ∧
    connectResults (run runningReverse
      [Input.connectTo 7,
       Input.newConnection (Pending.video (socketHolding (asciiBytes "pixel"))),
       Input.timer (some 7)]).2 =
      [(false, [], QSize.null), (false, [], QSize.null)] := by
  decide

/-! ## Tunnel-disable commands along a run -/

/-- C11 as stated fails. First: in ExecuteServer the tunnel is not marked
enabled, and StartFailed of the launch command issues the reverse-tunnel
disable command all the same. Second: an instance whose remote process exited
after Running is in Null with the listener still bound and the tunnel still
marked enabled; in the `start()` that follows push and reverse-enable succeed,
`listen` fails on the bound port, the failure path issues the disable command,
and the `stop()` after it issues a second one, with no tunnel-enable command
in between. -/
theorem disable_issued_when_unmarked_and_twice :
    { idleServer SSS_EXECUTE_SERVER false with
        m_serverSocketListening := true }.m_tunnelEnabled = false ∧
    disableCommands (onWorkProcessResult quietEnv Sender.serverProcess AER_ERROR_START
      { idleServer SSS_EXECUTE_SERVER false with m_serverSocketListening := true }).2 =
      [Action.reverseRemove "P7C0218510000537" "qtscrcpy"] ∧
    (run (idleServer SSS_NULL false)
      [Input.start quietEnv sampleParams,
       Input.processResult (workEvent quietEnv AER_SUCCESS_EXEC),
       Input.processResult (workEvent quietEnv AER_SUCCESS_EXEC),
       Input.processResult (serverEvent quietEnv AER_SUCCESS_START),
       Input.processResult (serverEvent quietEnv AER_ERROR_EXEC)]).1 =
      { idleServer SSS_NULL false with
          m_serverSocketListening := true, m_tunnelEnabled := true } ∧
    (run { idleServer SSS_NULL false with
            m_serverSocketListening := true, m_tunnelEnabled := true }
      [Input.start quietEnv sampleParams,
       Input.processResult (workEvent quietEnv AER_SUCCESS_EXEC),
       Input.processResult (workEvent { quietEnv with listenOk := false } AER_SUCCESS_EXEC),
       Input.stop]).2 =
      [Action.push "P7C0218510000537" "/data/local/tmp/scrcpy-server.jar",
       Action.reverse "P7C0218510000537" "qtscrcpy" 27183,
       Action.setMaxPendingConnections 2, Action.listen 27183,
       Action.reverseRemove "P7C0218510000537" "qtscrcpy",
       Action.serverStartResult false,
       Action.serverKill,
       Action.reverseRemove "P7C0218510000537" "qtscrcpy"] := by
  decide

theorem startServerByStep_mark (env : Env) (s : Server) :
    (startServerByStep env s).2.1.m_tunnelEnabled = s.m_tunnelEnabled := by
  cases hs : s.m_serverStartStep <;> cases hf : s.m_tunnelForward <;>
    cases hl : env.listenOk <;>
    simp [startServerByStep, hs, hf, hl, pushServer, enableTunnelReverse, enableTunnelForward,
      disableTunnelReverse, execute]

theorem onWorkResult_mark (env : Env) (r : ADB_EXEC_RESULT) (s : Server) :
    (onWorkResult env r s).1.m_tunnelEnabled = s.m_tunnelEnabled := by
  cases hs : s.m_serverStartStep <;> cases r <;>
    simp [onWorkResult, hs, startServerByStep_mark]

theorem onServerResult_mark (r : ADB_EXEC_RESULT) (s : Server)
    (h : (onServerResult r s).1.m_tunnelEnabled = true) :
    s.m_tunnelEnabled = true ∨
      (r = AER_SUCCESS_START ∧ s.m_serverStartStep = SSS_EXECUTE_SERVER) := by
  cases hs : s.m_serverStartStep <;> cases r <;> cases hf : s.m_tunnelForward <;>
    simp_all [onServerResult, disableTunnelReverse, disableTunnelForward]

theorem stopAcceptTimeoutTimer_mark (s : Server) :
    (stopAcceptTimeoutTimer s).1.m_tunnelEnabled = s.m_tunnelEnabled := by
  by_cases h : s.m_acceptTimeoutTimer = 0 <;> simp [stopAcceptTimeoutTimer, h]

theorem connectTo_mark (timerId : Nat) (s : Server) :
    (connectTo timerId s).2.1.m_tunnelEnabled = s.m_tunnelEnabled := by
  unfold connectTo
  split
  · rfl
  · split
    · simp [startAcceptTimeoutTimer, stopAcceptTimeoutTimer_mark]
    · rfl

theorem timerEvent_mark (event : Option Nat) (s : Server) :
    (timerEvent event s).1.m_tunnelEnabled = s.m_tunnelEnabled := by
  cases event with
  | none => rfl
  | some id =>
    by_cases h : s.m_acceptTimeoutTimer = id <;>
      simp [timerEvent, h, stopAcceptTimeoutTimer_mark]

theorem onNewConnection_mark (tmp : Pending) (s : Server)
    (h : (onNewConnection tmp s).1.m_tunnelEnabled = true) : s.m_tunnelEnabled = true := by
  cases tmp with
  | null =>
    simp [onNewConnection, stopAcceptTimeoutTimer_mark, (stop_observed _).2.2.2.1] at h
  | video sock =>
    cases hv : sock.isOpen
    · simp [onNewConnection, TcpSocket.isValid, hv, (stop_observed _).2.2.2.1] at h
    · cases hr : (readInfo sock s.m_deviceName s.m_deviceSize).1
      · simp [onNewConnection, TcpSocket.isValid, hv, hr, (stop_observed _).2.2.2.1] at h
      · simpa [onNewConnection, TcpSocket.isValid, hv, hr] using h
  | plain sock =>
    cases hv : sock.isOpen
    · simp [onNewConnection, TcpSocket.isValid, hv, stopAcceptTimeoutTimer_mark,
        (stop_observed _).2.2.2.1] at h
    · simp [onNewConnection, TcpSocket.isValid, hv, stopAcceptTimeoutTimer_mark,
        disableTunnelReverse] at h

theorem connectToDelayed_mark (h : HandshakeEnv) (s : Server) :
    (connectToDelayed h s).1.m_tunnelEnabled = false := by
  by_cases hc : handshakeComplete h
  · rw [connectToDelayed_succeeds h s hc]
  · obtain ⟨s0, pre, _, _, _, _, _, _, hrun⟩ := connectToDelayed_aborts h s hc
    rw [hrun]
    exact (stop_observed s0).2.2.2.1

/-- The tunnel gets marked enabled by StartSucceeded of the launch command in
ExecuteServer and by nothing else. -/
theorem mark_set_only_by_launch (s : Server) (i : Input)
    (hbefore : s.m_tunnelEnabled = false) (hafter : (step s i).1.m_tunnelEnabled = true) :
    s.m_serverStartStep = SSS_EXECUTE_SERVER ∧
    ∃ env, i = Input.processResult (serverEvent env AER_SUCCESS_START) := by
  cases i with
  | start env params =>
    simp [step, start, startServerByStep_mark, hbefore] at hafter
  | connectTo timerId =>
    simp [step, connectTo_mark, hbefore] at hafter
  | stop =>
    simp [step, (stop_observed s).2.2.2.1] at hafter
  | processResult e =>
    obtain ⟨env, sender, result⟩ := e
    cases sender
    · simp [step, onWorkProcessResult_work, onWorkResult_mark, hbefore] at hafter
    · simp only [step, onWorkProcessResult_server] at hafter
      rcases onServerResult_mark result s hafter with h | ⟨h1, h2⟩
      · simp [hbefore] at h
      · subst h1
        exact ⟨h2, env, rfl⟩
  | newConnection tmp =>
    have := onNewConnection_mark tmp s hafter
    simp [hbefore] at this
  | timer event =>
    simp [step, timerEvent_mark, hbefore] at hafter
  | delayedHandshake h =>
    simp [step, connectToDelayed_mark] at hafter

theorem stopDisableCount_le (ins : List Input) (s : Server) :
    stopDisableCount s ins ≤ (if s.m_tunnelEnabled = true then 1 else 0) + markCount s ins := by
  induction ins generalizing s with
  | nil => simp [stopDisableCount]
  | cons i is ih =>
    have h := ih (step s i).1
    simp only [stopDisableCount, markCount]
    cases i with
    | stop =>
      have hd := (stop_observed s).2.2.2.2.2.2.2
      have he := (stop_observed s).2.2.2.1
      simp only [step] at h ⊢
      simp only [he] at h ⊢
      simp only [hd]
      cases hs : s.m_tunnelEnabled <;> simp at h ⊢ <;> omega
    | start env params =>
      cases hs : s.m_tunnelEnabled <;>
        cases hn : (step s (Input.start env params)).1.m_tunnelEnabled <;>
        simp [hn] at h ⊢ <;> omega
    | connectTo timerId =>
      cases hs : s.m_tunnelEnabled <;>
        cases hn : (step s (Input.connectTo timerId)).1.m_tunnelEnabled <;>
        simp [hn] at h ⊢ <;> omega
    | processResult e =>
      cases hs : s.m_tunnelEnabled <;>
        cases hn : (step s (Input.processResult e)).1.m_tunnelEnabled <;>
        simp [hn] at h ⊢ <;> omega
    | newConnection tmp =>
      cases hs : s.m_tunnelEnabled <;>
        cases hn : (step s (Input.newConnection tmp)).1.m_tunnelEnabled <;>
        simp [hn] at h ⊢ <;> omega
    | timer event =>
      cases hs : s.m_tunnelEnabled <;>
        cases hn : (step s (Input.timer event)).1.m_tunnelEnabled <;>
        simp [hn] at h ⊢ <;> omega
    | delayedHandshake hh =>
      cases hs : s.m_tunnelEnabled <;>
        cases hn : (step s (Input.delayedHandshake hh)).1.m_tunnelEnabled <;>
        simp [hn] at h ⊢ <;> omega

/-- C11, amended: along every sequence of `start()`, `connectTo()`, `stop()`
calls and process, socket, timer and delayed-handshake events, the
tunnel-disable commands issued by `stop()` calls are at most as many as the
times the tunnel went from marked disabled to marked enabled (plus one when it
was marked enabled at the beginning). A `stop()` on a tunnel marked disabled
issues no disable command; on a tunnel marked enabled it issues the disable
command of the mode exactly once; in both cases it leaves the tunnel marked
disabled. The tunnel gets marked enabled only by StartSucceeded of the launch
command in ExecuteServer. -/
theorem stop_disables_once_per_mark (s : Server) (ins : List Input) :
    stopDisableCount s ins ≤ (if s.m_tunnelEnabled = true then 1 else 0) + markCount s ins ∧
    (s.m_tunnelEnabled = false → disableCommands (stop s).2 = []) ∧
    (s.m_tunnelEnabled = true →
      disableCommands (stop s).2 =
        [if s.m_tunnelForward = true
          then Action.forwardRemove s.m_params.serial s.m_params.localPort
          else Action.reverseRemove s.m_params.serial SOCKET_NAME]) ∧
    (stop s).1.m_tunnelEnabled = false ∧
    (∀ i : Input, s.m_tunnelEnabled = false → (step s i).1.m_tunnelEnabled = true →
      s.m_serverStartStep = SSS_EXECUTE_SERVER ∧
      ∃ env, i = Input.processResult (serverEvent env AER_SUCCESS_START)) := by
  have hd := (stop_observed s).2.2.2.2.2.2.2
  refine ⟨stopDisableCount_le ins s, ?_, ?_, (stop_observed s).2.2.2.1, ?_⟩
  · intro h
    simp [hd, h]
  · intro h
    simp [hd, h]
  · intro i hbefore hafter
    exact mark_set_only_by_launch s i hbefore hafter

/-- C11, amended, at a running reverse-mode instance that is stopped twice and
at an idle instance that is stopped. -/
theorem stop_disables_once_per_mark_witness :
    stopDisableCount runningReverse [Input.stop, Input.stop, Input.connectTo 7] ≤
      1 + markCount runningReverse [Input.stop, Input.stop, Input.connectTo 7] ∧
    stopDisableCount runningReverse [Input.stop, Input.stop, Input.connectTo 7] = 1 ∧
    disableCommands (stop (idleServer SSS_NULL false)).2 = [] ∧
    disableCommands (stop runningReverse).2 =
      [Action.reverseRemove "P7C0218510000537" "qtscrcpy"] :=
  ⟨(stop_disables_once_per_mark runningReverse [Input.stop, Input.stop, Input.connectTo 7]).1,
    by decide,
    (stop_disables_once_per_mark (idleServer SSS_NULL false) []).2.1 rfl,
    (stop_disables_once_per_mark runningReverse []).2.2.1 rfl⟩

end QtScrcpy
